import Mathlib

/-!
Shallow embedding of the wrap11 X11 wrapper library (Rust) for verification.

The embedding mirrors the Rust sources under `src/x11/`:
  * `display.rs`  — connection state, atom interning
  * `window.rs`   — window handles, ownership, drop behaviour, properties
  * `property.rs` — generic property holder trait (`get_property_completely`)
  * `input.rs`    — input devices and their properties
  * `event.rs`    — the event decoding and ownership-tagging core

Conventions of the embedding:
  * X resource ids (`Window`, `Atom`, `Colormap`, `XID`; `c_ulong` in C) are `Nat`.
  * C `int` values are `Int`.
  * `f64` payloads are only ever copied by the code under verification, never
    computed with, so they are embedded as an opaque bit-pattern wrapper `F64`.
  * A Rust function that can panic (`unreachable!`, `CString::new(..).unwrap()`)
    is embedded as an `Option`-returning function; `none` models the panic.
  * FFI calls into Xlib are embedded as oracle inputs (the reply the server
    gives) and, where the claims require it, as an explicit log of the calls
    the wrapper issues (`XFreeEventData` count, `get_property` call list).
  * The raw `XEvent` C union is a structure holding every view the decoder
    reads; the generic-event cookie payload is an inductive of the possible
    XInput2 payload structs, with total projections that yield a default
    (garbage) struct on a view mismatch, matching the C reinterpretation.

Numeric constants are the fixed values of the X11 protocol headers
(re-exported by the `x11` crate as `xlib_sys`, `xfixes_sys`, `xinput2_sys`).
-/

namespace Wrap11

/-- An X resource id (`XID` / `c_ulong`). -/
abbrev XID := Nat

/-- Opaque stand-in for an `f64` payload value: the decoder only copies these,
so they are represented by their bit pattern. -/
structure F64 where
  bits : Nat
deriving DecidableEq, Repr, Inhabited

/-! ## xlib_sys constants (X.h / Xlib.h) -/

@[simp] def xlib_sys.KeyPress : Int := 2
@[simp] def xlib_sys.KeyRelease : Int := 3
@[simp] def xlib_sys.ButtonPress : Int := 4
@[simp] def xlib_sys.ButtonRelease : Int := 5
@[simp] def xlib_sys.MotionNotify : Int := 6
@[simp] def xlib_sys.EnterNotify : Int := 7
@[simp] def xlib_sys.LeaveNotify : Int := 8
@[simp] def xlib_sys.FocusIn : Int := 9
@[simp] def xlib_sys.FocusOut : Int := 10
@[simp] def xlib_sys.KeymapNotify : Int := 11
@[simp] def xlib_sys.Expose : Int := 12
@[simp] def xlib_sys.VisibilityNotify : Int := 15
@[simp] def xlib_sys.DestroyNotify : Int := 17
@[simp] def xlib_sys.UnmapNotify : Int := 18
@[simp] def xlib_sys.MapNotify : Int := 19
@[simp] def xlib_sys.MapRequest : Int := 20
@[simp] def xlib_sys.ReparentNotify : Int := 21
@[simp] def xlib_sys.ConfigureNotify : Int := 22
@[simp] def xlib_sys.ConfigureRequest : Int := 23
@[simp] def xlib_sys.GravityNotify : Int := 24
@[simp] def xlib_sys.ResizeRequest : Int := 25
@[simp] def xlib_sys.CirculateNotify : Int := 26
@[simp] def xlib_sys.CirculateRequest : Int := 27
@[simp] def xlib_sys.PropertyNotify : Int := 28
@[simp] def xlib_sys.SelectionClear : Int := 29
@[simp] def xlib_sys.SelectionRequest : Int := 30
@[simp] def xlib_sys.SelectionNotify : Int := 31
@[simp] def xlib_sys.ColormapNotify : Int := 32
@[simp] def xlib_sys.ClientMessage : Int := 33
@[simp] def xlib_sys.MappingNotify : Int := 34
@[simp] def xlib_sys.GenericEvent : Int := 35

@[simp] def xlib_sys.VisibilityUnobscured : Int := 0
@[simp] def xlib_sys.VisibilityPartiallyObscured : Int := 1
@[simp] def xlib_sys.VisibilityFullyObscured : Int := 2

@[simp] def xlib_sys.MappingModifier : Int := 0
@[simp] def xlib_sys.MappingKeyboard : Int := 1
@[simp] def xlib_sys.MappingPointer : Int := 2

@[simp] def xlib_sys.Above : Int := 0
@[simp] def xlib_sys.Below : Int := 1
@[simp] def xlib_sys.TopIf : Int := 2
@[simp] def xlib_sys.BottomIf : Int := 3
@[simp] def xlib_sys.Opposite : Int := 4

@[simp] def xlib_sys.PlaceOnTop : Int := 0
@[simp] def xlib_sys.PlaceOnBottom : Int := 1

@[simp] def xlib_sys.PropertyNewValue : Int := 0
@[simp] def xlib_sys.PropertyDelete : Int := 1

@[simp] def xlib_sys.NotifyNormal : Int := 0
@[simp] def xlib_sys.NotifyGrab : Int := 1
@[simp] def xlib_sys.NotifyUngrab : Int := 2

@[simp] def xlib_sys.NotifyHint : Int := 1

@[simp] def xlib_sys.NotifyAncestor : Int := 0
@[simp] def xlib_sys.NotifyVirtual : Int := 1
@[simp] def xlib_sys.NotifyInferior : Int := 2
@[simp] def xlib_sys.NotifyNonlinear : Int := 3
@[simp] def xlib_sys.NotifyNonlinearVirtual : Int := 4
@[simp] def xlib_sys.NotifyPointer : Int := 5
@[simp] def xlib_sys.NotifyPointerRoot : Int := 6
@[simp] def xlib_sys.NotifyDetailNone : Int := 7

@[simp] def xlib_sys.ColormapUninstalled : Int := 0
@[simp] def xlib_sys.ColormapInstalled : Int := 1

/-! ## xfixes_sys constants (Xfixes.h) -/

@[simp] def xfixes_sys.XFixesCursorNotify : Int := 1
@[simp] def xfixes_sys.XFixesDisplayCursorNotify : Int := 0

/-! ## xinput2_sys constants (XI2.h) -/

@[simp] def xinput2_sys.XI_DeviceChanged : Int := 1
@[simp] def xinput2_sys.XI_KeyPress : Int := 2
@[simp] def xinput2_sys.XI_KeyRelease : Int := 3
@[simp] def xinput2_sys.XI_ButtonPress : Int := 4
@[simp] def xinput2_sys.XI_ButtonRelease : Int := 5
@[simp] def xinput2_sys.XI_Motion : Int := 6
@[simp] def xinput2_sys.XI_Enter : Int := 7
@[simp] def xinput2_sys.XI_Leave : Int := 8
@[simp] def xinput2_sys.XI_FocusIn : Int := 9
@[simp] def xinput2_sys.XI_FocusOut : Int := 10
@[simp] def xinput2_sys.XI_HierarchyChanged : Int := 11
@[simp] def xinput2_sys.XI_PropertyEvent : Int := 12
@[simp] def xinput2_sys.XI_RawKeyPress : Int := 13
@[simp] def xinput2_sys.XI_RawKeyRelease : Int := 14
@[simp] def xinput2_sys.XI_RawButtonPress : Int := 15
@[simp] def xinput2_sys.XI_RawButtonRelease : Int := 16
@[simp] def xinput2_sys.XI_RawMotion : Int := 17
@[simp] def xinput2_sys.XI_TouchBegin : Int := 18
@[simp] def xinput2_sys.XI_TouchUpdate : Int := 19
@[simp] def xinput2_sys.XI_TouchEnd : Int := 20
@[simp] def xinput2_sys.XI_TouchOwnership : Int := 21
@[simp] def xinput2_sys.XI_RawTouchBegin : Int := 22
@[simp] def xinput2_sys.XI_RawTouchUpdate : Int := 23
@[simp] def xinput2_sys.XI_RawTouchEnd : Int := 24
@[simp] def xinput2_sys.XI_BarrierHit : Int := 25
@[simp] def xinput2_sys.XI_BarrierLeave : Int := 26

@[simp] def xinput2_sys.XIKeyClass : Int := 0
@[simp] def xinput2_sys.XIButtonClass : Int := 1
@[simp] def xinput2_sys.XIValuatorClass : Int := 2
@[simp] def xinput2_sys.XIScrollClass : Int := 3
@[simp] def xinput2_sys.XITouchClass : Int := 8

@[simp] def xinput2_sys.XISlaveSwitch : Int := 1
@[simp] def xinput2_sys.XIDeviceChange : Int := 2

@[simp] def xinput2_sys.XIModeRelative : Int := 0
@[simp] def xinput2_sys.XIModeAbsolute : Int := 1

@[simp] def xinput2_sys.XIScrollTypeVertical : Int := 1
@[simp] def xinput2_sys.XIScrollTypeHorizontal : Int := 2

@[simp] def xinput2_sys.XIDirectTouch : Int := 1
@[simp] def xinput2_sys.XIDependentTouch : Int := 2

@[simp] def xinput2_sys.XINotifyNormal : Int := 0
@[simp] def xinput2_sys.XINotifyGrab : Int := 1
@[simp] def xinput2_sys.XINotifyUngrab : Int := 2

@[simp] def xinput2_sys.XINotifyAncestor : Int := 0
@[simp] def xinput2_sys.XINotifyVirtual : Int := 1
@[simp] def xinput2_sys.XINotifyInferior : Int := 2
@[simp] def xinput2_sys.XINotifyNonlinear : Int := 3
@[simp] def xinput2_sys.XINotifyNonlinearVirtual : Int := 4
@[simp] def xinput2_sys.XINotifyPointer : Int := 5
@[simp] def xinput2_sys.XINotifyPointerRoot : Int := 6
@[simp] def xinput2_sys.XINotifyDetailNone : Int := 7

@[simp] def xinput2_sys.XIPropertyDeleted : Int := 0
@[simp] def xinput2_sys.XIPropertyCreated : Int := 1
@[simp] def xinput2_sys.XIPropertyModified : Int := 2

/-! ## Connection (`display.rs`): cached extension identification state -/

/-- The connection state the decoder consults (`XDisplay` in `display.rs`):
the xfixes event base offset and the xinput2 extension opcode, both cached at
connect time. -/
structure XDisplay where
  xfixes_event_base : Int
  xinput2_opcode : Int
deriving DecidableEq, Repr, Inhabited

/-! ## Resource handles and ownership (`window.rs`, `colormap.rs`) -/

/-- `WindowHandleOwnership` from `window.rs`. -/
inductive WindowHandleOwnership where
  | Foreign
  | Owned
  | OwnedCompositeOverlay
deriving DecidableEq, Repr, Inhabited

/-- `XWindow` from `window.rs`: raw handle plus ownership tag.  The display
back-reference carries no decode-relevant data beyond lifetime and is dropped
in the embedding. -/
structure XWindow where
  handle : XID
  ownership : WindowHandleOwnership
deriving DecidableEq, Repr, Inhabited

/-- `XWindow::new`. -/
def XWindow.new (handle : XID) (ownership : WindowHandleOwnership) : XWindow :=
  { handle := handle, ownership := ownership }

/-- The connection call performed when a handle is dropped. -/
inductive DropAction where
  | none
  | destroyWindow (handle : XID)
  | releaseCompositeOverlay (handle : XID)
deriving DecidableEq, Repr

/-- `impl Drop for XWindow` (`window.rs:971`): which release primitive, if
any, dropping the handle invokes. -/
def XWindow.dropAction (w : XWindow) : DropAction :=
  match w.ownership with
  | WindowHandleOwnership.Foreign => DropAction.none
  | WindowHandleOwnership.Owned => DropAction.destroyWindow w.handle
  | WindowHandleOwnership.OwnedCompositeOverlay => DropAction.releaseCompositeOverlay w.handle

/-- `ColormapHandleOwnership` from `colormap.rs`. -/
inductive ColormapHandleOwnership where
  | Foreign
  | Owned
deriving DecidableEq, Repr, Inhabited

/-- `XColormap` from `colormap.rs`. -/
structure XColormap where
  handle : XID
  ownership : ColormapHandleOwnership
deriving DecidableEq, Repr, Inhabited

/-- `XColormap::new`. -/
def XColormap.new (handle : XID) (ownership : ColormapHandleOwnership) : XColormap :=
  { handle := handle, ownership := ownership }

/-- `XAtom` from `atom.rs`: a plain id wrapper, no ownership. -/
structure XAtom where
  handle : XID
deriving DecidableEq, Repr, Inhabited

/-- `XAtom::new`. -/
def XAtom.new (handle : XID) : XAtom := { handle := handle }

/-- `XInputDevice` from `input.rs`: an id-based value type, no ownership. -/
structure XInputDevice where
  id : Int
deriving DecidableEq, Repr, Inhabited

/-- `XInputDevice::from_id`. -/
def XInputDevice.from_id (id : Int) : XInputDevice := { id := id }

/-! ## Atom interning (`display.rs`) -/

/-- The X server side of `XInternAtom`: given a (nul-free) name and the
`only_if_exists` flag, the atom id the server replies with (`0` = no atom). -/
structure AtomServer where
  intern : List Nat → Bool → Nat

/-- `CString::new` on a byte string: panics (`none`) on an embedded nul. -/
def CString.new (bytes : List Nat) : Option (List Nat) :=
  if 0 ∈ bytes then none else some bytes

/-- `XDisplay::get_atom` (`display.rs:199`): interns with
`only_if_exists = 1`; `0` from the server means no such atom.  The outer
`Option` is the panic of `CString::new(..).unwrap()`; the inner `Option` is
the `Option<XAtom>` return value. -/
def XDisplay.get_atom (server : AtomServer) (name : List Nat) : Option (Option XAtom) :=
  match CString.new name with
  | none => none
  | some cname =>
    let atom := server.intern cname true
    if atom = 0 then some none else some (some (XAtom.new atom))

/-- `XDisplay::get_or_create_atom` (`display.rs:219`): interns with
`only_if_exists = 0`; always produces an atom.  The `Option` is the
`CString::new(..).unwrap()` panic. -/
def XDisplay.get_or_create_atom (server : AtomServer) (name : List Nat) : Option XAtom :=
  match CString.new name with
  | none => none
  | some cname => some (XAtom.new (server.intern cname false))

/-! ## Properties (`property.rs`, `window.rs`, `input.rs`) -/

/-- `XPropertyDataFormat` from `property.rs` (identical to
`WindowPropertyDataFormat` from `window.rs`). -/
inductive XPropertyDataFormat where
  | Bit8
  | Bit16
  | Bit32
deriving DecidableEq, Repr, Inhabited

/-- `XPropertyDataFormat::from_native`. -/
def XPropertyDataFormat.from_native (format : Int) : Option XPropertyDataFormat :=
  match format with
  | 8 => some XPropertyDataFormat.Bit8
  | 16 => some XPropertyDataFormat.Bit16
  | 32 => some XPropertyDataFormat.Bit32
  | _ => none

/-- `XPropertyData` from `property.rs` (and `WindowPropertyData` from
`window.rs`): format, server-reported type, element count and raw bytes. -/
structure XPropertyData where
  format : XPropertyDataFormat
  actual_type : XAtom
  item_count : Nat
  data : List Nat
deriving DecidableEq, Repr, Inhabited

/-- The out-parameters `XGetWindowProperty` / `XIGetProperty` fill in: the
oracle reply of the X server to one property read. -/
structure GetPropertyReply where
  actual_type : XID
  actual_format : Int
  item_count : Nat
  remaining_bytes : Nat
  data : List Nat
deriving DecidableEq, Repr, Inhabited

/-- `XWindow::get_property` (`window.rs:657`): wraps the server reply;
produces a value exactly when `from_native` accepts the reported format. -/
def XWindow.get_property (reply : GetPropertyReply) : Option (XPropertyData × Nat) :=
  (XPropertyDataFormat.from_native reply.actual_format).map fun format =>
    ({ format := format
       actual_type := XAtom.new reply.actual_type
       item_count := reply.item_count
       data := reply.data }, reply.remaining_bytes)

/-- `<XInputDevice as XPropertyHolder>::get_property` (`input.rs:55`): the
same wrapping applied to the `XIGetProperty` reply. -/
def XInputDevice.get_property (reply : GetPropertyReply) : Option (XPropertyData × Nat) :=
  (XPropertyDataFormat.from_native reply.actual_format).map fun format =>
    ({ format := format
       actual_type := XAtom.new reply.actual_type
       item_count := reply.item_count
       data := reply.data }, reply.remaining_bytes)

/-- One `get_property` request as issued by `get_property_completely`:
offset, length, delete flag. -/
structure PropCall where
  offset : Int
  length : Int
  delete : Bool
deriving DecidableEq, Repr

/-- An implementor of the `XPropertyHolder` trait, as seen from
`get_property_completely`: the response to each `get_property` request. -/
structure PropHolder where
  get_property : Int → Int → Bool → Option (XPropertyData × Nat)

/-- `XPropertyHolder::get_property_completely` (`property.rs:349`), with the
issued `get_property` calls logged.  Source:
first a probe `get_property(property, 0, 0, false, ty)?`; if the reported
remaining count is `< 1`, short-circuit with the probe data; otherwise one
more call `get_property(property, 0, remaining / 4, delete, ty)?`. -/
def PropHolder.get_property_completely (h : PropHolder) (delete : Bool) :
    Option XPropertyData × List PropCall :=
  let probe : PropCall := { offset := 0, length := 0, delete := false }
  match h.get_property 0 0 false with
  | none => (none, [probe])
  | some (data, remaining) =>
    if remaining < 1 then
      (some data, [probe])
    else
      let second : PropCall := { offset := 0, length := (remaining / 4 : Nat), delete := delete }
      match h.get_property 0 ((remaining / 4 : Nat) : Int) delete with
      | none => (none, [probe, second])
      | some (data2, _) => (some data2, [probe, second])

/-! ## Event sub-field wrapper enums (`event.rs`, `colormap.rs`)

Each Rust `new` below is a `match` ending in `unreachable!`; the embedding
returns `none` exactly where the Rust panics. -/

/-- `VisibilityState` (`event.rs:9`). -/
inductive VisibilityState where
  | Unobscured
  | PartiallyObscured
  | FullyObscured
deriving DecidableEq, Repr, Inhabited

/-- `VisibilityState::new` (`event.rs:26`). -/
def VisibilityState.new (state : Int) : Option VisibilityState :=
  if state = xlib_sys.VisibilityUnobscured then some VisibilityState.Unobscured
  else if state = xlib_sys.VisibilityPartiallyObscured then some VisibilityState.PartiallyObscured
  else if state = xlib_sys.VisibilityFullyObscured then some VisibilityState.FullyObscured
  else none

/-- `MappingRequestType` (`event.rs:38`). -/
inductive MappingRequestType where
  | Modifier
  | Keyboard
  | Pointer
deriving DecidableEq, Repr, Inhabited

/-- `MappingRequestType::new` (`event.rs:50`). -/
def MappingRequestType.new (request : Int) : Option MappingRequestType :=
  if request = xlib_sys.MappingModifier then some MappingRequestType.Modifier
  else if request = xlib_sys.MappingKeyboard then some MappingRequestType.Keyboard
  else if request = xlib_sys.MappingPointer then some MappingRequestType.Pointer
  else none

/-- `ConfigureDetail` (`event.rs:69`). -/
inductive ConfigureDetail where
  | Above
  | Below
  | TopIf
  | BottomIf
  | Opposite
deriving DecidableEq, Repr, Inhabited

/-- `ConfigureDetail::new` (`event.rs:83`). -/
def ConfigureDetail.new (detail : Int) : Option ConfigureDetail :=
  if detail = xlib_sys.Above then some ConfigureDetail.Above
  else if detail = xlib_sys.Below then some ConfigureDetail.Below
  else if detail = xlib_sys.TopIf then some ConfigureDetail.TopIf
  else if detail = xlib_sys.BottomIf then some ConfigureDetail.BottomIf
  else if detail = xlib_sys.Opposite then some ConfigureDetail.Opposite
  else none

/-- `CirculatePlace` (`event.rs:97`). -/
inductive CirculatePlace where
  | Top
  | Bottom
deriving DecidableEq, Repr, Inhabited

/-- `CirculatePlace::new` (`event.rs:111`). -/
def CirculatePlace.new (place : Int) : Option CirculatePlace :=
  if place = xlib_sys.PlaceOnTop then some CirculatePlace.Top
  else if place = xlib_sys.PlaceOnBottom then some CirculatePlace.Bottom
  else none

/-- `PropertyState` (`event.rs:122`). -/
inductive PropertyState where
  | NewValue
  | Delete
deriving DecidableEq, Repr, Inhabited

/-- `PropertyState::new` (`event.rs:136`). -/
def PropertyState.new (state : Int) : Option PropertyState :=
  if state = xlib_sys.PropertyNewValue then some PropertyState.NewValue
  else if state = xlib_sys.PropertyDelete then some PropertyState.Delete
  else none

/-- `InputModifierMask` (`event.rs:147`): a bitflags wrapper;
`from_bits_retain` keeps the raw bits. -/
structure InputModifierMask where
  bits : Nat
deriving DecidableEq, Repr, Inhabited

/-- `InputModifierMask::from_bits_retain`. -/
def InputModifierMask.from_bits_retain (bits : Nat) : InputModifierMask := { bits := bits }

/-- `NotifyMode` (`event.rs:191`). -/
inductive NotifyMode where
  | Normal
  | Grab
  | Ungrab
deriving DecidableEq, Repr, Inhabited

/-- `NotifyMode::new` (`event.rs:208`). -/
def NotifyMode.new (mode : Int) : Option NotifyMode :=
  if mode = xlib_sys.NotifyNormal then some NotifyMode.Normal
  else if mode = xlib_sys.NotifyGrab then some NotifyMode.Grab
  else if mode = xlib_sys.NotifyUngrab then some NotifyMode.Ungrab
  else none

/-- `NotifyDetail` (`event.rs:220`). -/
inductive NotifyDetail where
  | Ancestor
  | Virtual
  | Inferior
  | Nonlinear
  | NonlinearVirtual
  | Pointer
  | PointerRoot
  | None
deriving DecidableEq, Repr, Inhabited

/-- `NotifyDetail::new` (`event.rs:252`). -/
def NotifyDetail.new (detail : Int) : Option NotifyDetail :=
  if detail = xlib_sys.NotifyAncestor then some NotifyDetail.Ancestor
  else if detail = xlib_sys.NotifyVirtual then some NotifyDetail.Virtual
  else if detail = xlib_sys.NotifyInferior then some NotifyDetail.Inferior
  else if detail = xlib_sys.NotifyNonlinear then some NotifyDetail.Nonlinear
  else if detail = xlib_sys.NotifyNonlinearVirtual then some NotifyDetail.NonlinearVirtual
  else if detail = xlib_sys.NotifyPointer then some NotifyDetail.Pointer
  else if detail = xlib_sys.NotifyPointerRoot then some NotifyDetail.PointerRoot
  else if detail = xlib_sys.NotifyDetailNone then some NotifyDetail.None
  else none

/-- `ColormapState` (`colormap.rs:15`). -/
inductive ColormapState where
  | Installed
  | Uninstalled
deriving DecidableEq, Repr, Inhabited

/-- `ColormapState::new` (`colormap.rs:29`). -/
def ColormapState.new (state : Int) : Option ColormapState :=
  if state = xlib_sys.ColormapInstalled then some ColormapState.Installed
  else if state = xlib_sys.ColormapUninstalled then some ColormapState.Uninstalled
  else none

/-- `ClientMessageData` (`event.rs:61`). -/
inductive ClientMessageData where
  | Bit8 (data : List Int)
  | Bit16 (data : List Int)
  | Bit32 (data : List Int)
deriving DecidableEq, Repr, Inhabited

/-- `XDisplayCursorEventSubtype` (`event.rs:2359`). -/
inductive XDisplayCursorEventSubtype where
  | CursorNotify
deriving DecidableEq, Repr, Inhabited

/-- `XDisplayCursorEventSubtype::new` (`event.rs:2369`). -/
def XDisplayCursorEventSubtype.new (subtype : Int) : Option XDisplayCursorEventSubtype :=
  if subtype = xfixes_sys.XFixesDisplayCursorNotify then some XDisplayCursorEventSubtype.CursorNotify
  else none

/-- `XIDeviceChangeReason` (`event.rs:2782`). -/
inductive XIDeviceChangeReason where
  | SlaveSwitch
  | DeviceChange
deriving DecidableEq, Repr, Inhabited

/-- `XIDeviceChangeReason::new` (`event.rs:2798`). -/
def XIDeviceChangeReason.new (reason : Int) : Option XIDeviceChangeReason :=
  if reason = xinput2_sys.XISlaveSwitch then some XIDeviceChangeReason.SlaveSwitch
  else if reason = xinput2_sys.XIDeviceChange then some XIDeviceChangeReason.DeviceChange
  else none

/-- `XIValuatorMode` (`event.rs:2526`). -/
inductive XIValuatorMode where
  | Absolute
  | Relative
deriving DecidableEq, Repr, Inhabited

/-- `XIValuatorMode::new` (`event.rs:2545`). -/
def XIValuatorMode.new (mode : Int) : Option XIValuatorMode :=
  if mode = xinput2_sys.XIModeAbsolute then some XIValuatorMode.Absolute
  else if mode = xinput2_sys.XIModeRelative then some XIValuatorMode.Relative
  else none

/-- `XIScrollType` (`event.rs:2552`). -/
inductive XIScrollType where
  | Vertical
  | Horizontal
deriving DecidableEq, Repr, Inhabited

/-- `XIScrollType::new` (`event.rs:2571`). -/
def XIScrollType.new (ty : Int) : Option XIScrollType :=
  if ty = xinput2_sys.XIScrollTypeVertical then some XIScrollType.Vertical
  else if ty = xinput2_sys.XIScrollTypeHorizontal then some XIScrollType.Horizontal
  else none

/-- `XITouchMode` (`event.rs:2589`). -/
inductive XITouchMode where
  | Direct
  | Dependent
deriving DecidableEq, Repr, Inhabited

/-- `XITouchMode::new` (`event.rs:2608`). -/
def XITouchMode.new (mode : Int) : Option XITouchMode :=
  if mode = xinput2_sys.XIDirectTouch then some XITouchMode.Direct
  else if mode = xinput2_sys.XIDependentTouch then some XITouchMode.Dependent
  else none

/-- `XIFocusEventMode` (`event.rs:3404`). -/
inductive XIFocusEventMode where
  | Normal
  | Grab
  | Ungrab
deriving DecidableEq, Repr, Inhabited

/-- `XIFocusEventMode::new` (`event.rs:3422`). -/
def XIFocusEventMode.new (mode : Int) : Option XIFocusEventMode :=
  if mode = xinput2_sys.XINotifyNormal then some XIFocusEventMode.Normal
  else if mode = xinput2_sys.XINotifyGrab then some XIFocusEventMode.Grab
  else if mode = xinput2_sys.XINotifyUngrab then some XIFocusEventMode.Ungrab
  else none

/-- `XIFocusEventDetail` (`event.rs:3430`). -/
inductive XIFocusEventDetail where
  | Ancestor
  | Virtual
  | Inferior
  | Nonlinear
  | NonlinearVirtual
  | Pointer
  | PointerRoot
  | None
deriving DecidableEq, Repr, Inhabited

/-- `XIFocusEventDetail::new` (`event.rs:3455`). -/
def XIFocusEventDetail.new (detail : Int) : Option XIFocusEventDetail :=
  if detail = xinput2_sys.XINotifyAncestor then some XIFocusEventDetail.Ancestor
  else if detail = xinput2_sys.XINotifyVirtual then some XIFocusEventDetail.Virtual
  else if detail = xinput2_sys.XINotifyInferior then some XIFocusEventDetail.Inferior
  else if detail = xinput2_sys.XINotifyNonlinear then some XIFocusEventDetail.Nonlinear
  else if detail = xinput2_sys.XINotifyNonlinearVirtual then some XIFocusEventDetail.NonlinearVirtual
  else if detail = xinput2_sys.XINotifyPointer then some XIFocusEventDetail.Pointer
  else if detail = xinput2_sys.XINotifyPointerRoot then some XIFocusEventDetail.PointerRoot
  else if detail = xinput2_sys.XINotifyDetailNone then some XIFocusEventDetail.None
  else none

/-- `XIPropertyEventChange` (`event.rs:3606`). -/
inductive XIPropertyEventChange where
  | Created
  | Deleted
  | Modified
deriving DecidableEq, Repr, Inhabited

/-- `XIPropertyEventChange::new` (`event.rs:3630`). -/
def XIPropertyEventChange.new (change : Int) : Option XIPropertyEventChange :=
  if change = xinput2_sys.XIPropertyCreated then some XIPropertyEventChange.Created
  else if change = xinput2_sys.XIPropertyDeleted then some XIPropertyEventChange.Deleted
  else if change = xinput2_sys.XIPropertyModified then some XIPropertyEventChange.Modified
  else none

/-! ## Raw wire views of the `XEvent` union (`x11::xlib` structs)

Each structure lists exactly the fields the corresponding wrapper constructor
in `event.rs` reads. -/

/-- The `xany` view: fields read by `XEvent::new`. -/
structure RawAnyEvent where
  serial : Nat
  send_event : Int
  window : XID
deriving DecidableEq, Repr, Inhabited

/-- `xlib_sys::XMotionEvent` fields read by `XMotionEvent::new`. -/
structure RawMotionEvent where
  root : XID
  subwindow : XID
  time : Nat
  x : Int
  y : Int
  x_root : Int
  y_root : Int
  state : Nat
  is_hint : Int
  same_screen : Int
deriving DecidableEq, Repr, Inhabited

/-- `xlib_sys::XButtonEvent` fields read by `XButtonEvent::new`. -/
structure RawButtonEvent where
  root : XID
  subwindow : XID
  time : Nat
  x : Int
  y : Int
  x_root : Int
  y_root : Int
  state : Nat
  button : Nat
  same_screen : Int
deriving DecidableEq, Repr, Inhabited

/-- `xlib_sys::XColormapEvent` fields read by `XColormapEvent::new`. -/
structure RawColormapEvent where
  colormap : XID
  new : Int
  state : Int
deriving DecidableEq, Repr, Inhabited

/-- `xlib_sys::XCrossingEvent` fields read by `XCrossingEvent::new`. -/
structure RawCrossingEvent where
  root : XID
  subwindow : XID
  time : Nat
  x : Int
  y : Int
  x_root : Int
  y_root : Int
  detail : Int
  same_screen : Int
  focus : Int
  state : Nat
deriving DecidableEq, Repr, Inhabited

/-- `xlib_sys::XExposeEvent` fields read by `XExposeEvent::new`. -/
structure RawExposeEvent where
  x : Int
  y : Int
  width : Int
  height : Int
  count : Int
deriving DecidableEq, Repr, Inhabited

/-- `xlib_sys::XFocusChangeEvent` fields read by `XFocusChangeEvent::new`. -/
structure RawFocusChangeEvent where
  mode : Int
  detail : Int
deriving DecidableEq, Repr, Inhabited

/-- `xlib_sys::XKeymapEvent` fields read by `XKeymapEvent::new`. -/
structure RawKeymapEvent where
  key_vector : List Nat
deriving DecidableEq, Repr, Inhabited

/-- `xlib_sys::XKeyEvent` fields read by `XKeyEvent::new`. -/
structure RawKeyEvent where
  root : XID
  subwindow : XID
  time : Nat
  x : Int
  y : Int
  x_root : Int
  y_root : Int
  state : Nat
  keycode : Nat
  same_screen : Int
deriving DecidableEq, Repr, Inhabited

/-- `xlib_sys::XPropertyEvent` fields read by `XPropertyEvent::new`. -/
structure RawPropertyEvent where
  atom : XID
  time : Nat
  state : Int
deriving DecidableEq, Repr, Inhabited

/-- `xlib_sys::XResizeRequestEvent` fields read by `XResizeRequestEvent::new`. -/
structure RawResizeRequestEvent where
  width : Int
  height : Int
deriving DecidableEq, Repr, Inhabited

/-- `xlib_sys::XCirculateEvent` fields read by `XCirculateEvent::new`. -/
structure RawCirculateEvent where
  window : XID
  place : Int
deriving DecidableEq, Repr, Inhabited

/-- `xlib_sys::XConfigureEvent` fields read by `XConfigureEvent::new`. -/
structure RawConfigureEvent where
  window : XID
  x : Int
  y : Int
  width : Int
  height : Int
  border_width : Int
  above : XID
  override_redirect : Int
deriving DecidableEq, Repr, Inhabited

/-- `xlib_sys::XDestroyWindowEvent` fields read by `XDestroyWindowEvent::new`. -/
structure RawDestroyWindowEvent where
  window : XID
deriving DecidableEq, Repr, Inhabited

/-- `xlib_sys::XGravityEvent` fields read by `XGravityEvent::new`. -/
structure RawGravityEvent where
  window : XID
  x : Int
  y : Int
deriving DecidableEq, Repr, Inhabited

/-- `xlib_sys::XMapEvent` fields read by `XMapEvent::new`. -/
structure RawMapEvent where
  window : XID
  override_redirect : Int
deriving DecidableEq, Repr, Inhabited

/-- `xlib_sys::XReparentEvent` fields read by `XReparentEvent::new`. -/
structure RawReparentEvent where
  window : XID
  parent : XID
  x : Int
  y : Int
  override_redirect : Int
deriving DecidableEq, Repr, Inhabited

/-- `xlib_sys::XUnmapEvent` fields read by `XUnmapEvent::new`. -/
structure RawUnmapEvent where
  window : XID
  from_configure : Int
deriving DecidableEq, Repr, Inhabited

/-- `xlib_sys::XCirculateRequestEvent` fields read by
`XCirculateRequestEvent::new`. -/
structure RawCirculateRequestEvent where
  window : XID
  place : Int
deriving DecidableEq, Repr, Inhabited

/-- `xlib_sys::XConfigureRequestEvent` fields read by
`XConfigureRequestEvent::new`. -/
structure RawConfigureRequestEvent where
  window : XID
  x : Int
  y : Int
  width : Int
  height : Int
  border_width : Int
  above : XID
  detail : Int
  value_mask : Nat
deriving DecidableEq, Repr, Inhabited

/-- `xlib_sys::XMapRequestEvent` fields read by `XMapRequestEvent::new`. -/
structure RawMapRequestEvent where
  window : XID
deriving DecidableEq, Repr, Inhabited

/-- `xlib_sys::XClientMessageEvent` fields read by `XClientMessageEvent::new`:
the data union is kept as its three accessor views (`get_byte`, `get_short`,
`get_long`). -/
structure RawClientMessageEvent where
  message_type : XID
  format : Int
  data_bytes : List Int
  data_shorts : List Int
  data_longs : List Int
deriving DecidableEq, Repr, Inhabited

/-- `xlib_sys::XMappingEvent` fields read by `XMappingEvent::new`. -/
structure RawMappingEvent where
  request : Int
  first_keycode : Int
  count : Int
deriving DecidableEq, Repr, Inhabited

/-- `xlib_sys::XSelectionClearEvent` fields read by
`XSelectionClearEvent::new`. -/
structure RawSelectionClearEvent where
  selection : XID
  time : Nat
deriving DecidableEq, Repr, Inhabited

/-- `xlib_sys::XSelectionEvent` fields read by `XSelectionEvent::new`. -/
structure RawSelectionEvent where
  selection : XID
  target : XID
  property : XID
  time : Nat
deriving DecidableEq, Repr, Inhabited

/-- `xlib_sys::XSelectionRequestEvent` fields read by
`XSelectionRequestEvent::new`. -/
structure RawSelectionRequestEvent where
  requestor : XID
  selection : XID
  target : XID
  property : XID
  time : Nat
deriving DecidableEq, Repr, Inhabited

/-- `xlib_sys::XVisibilityEvent` fields read by `XVisibilityEvent::new`. -/
structure RawVisibilityEvent where
  state : Int
deriving DecidableEq, Repr, Inhabited

/-- `xfixes_sys::XFixesCursorNotifyEvent` fields read by
`XDisplayCursorEvent::new`. -/
structure RawXFixesCursorNotifyEvent where
  subtype : Int
  cursor_serial : Nat
  timestamp : Nat
  cursor_name : XID
deriving DecidableEq, Repr, Inhabited

/-! ## Raw XInput2 payload structs (`x11::xinput2` structs) -/

/-- `xinput2_sys::XIModifierState`. -/
structure RawXIModifierState where
  base : Int
  latched : Int
  locked : Int
  effective : Int
deriving DecidableEq, Repr, Inhabited

/-- One entry of the class-info array of a device-changed event: the byte
view of one `XIAnyClassInfo`, discriminated by `_type`.  The `other`
constructor stands for bytes whose `_type` is none of the known classes. -/
inductive RawXIClassInfo where
  | key (sourceid : Int) (keycodes : List Int)
  | button (sourceid : Int) (labels : List XID) (mask : List Nat)
  | valuator (sourceid : Int) (number : Int) (label : XID) (min max value : F64)
      (resolution : Int) (mode : Int)
  | scroll (sourceid : Int) (number : Int) (scroll_type : Int) (increment : F64)
      (flags : Int)
  | touch (sourceid : Int) (mode : Int) (num_touches : Nat)
  | other (ty : Int)
deriving DecidableEq, Repr, Inhabited

/-- `xinput2_sys::XIDeviceChangedEvent` fields read by
`XIDeviceChangedEvent::new`. -/
structure RawXIDeviceChangedEvent where
  time : Nat
  deviceid : Int
  sourceid : Int
  reason : Int
  classes : List RawXIClassInfo
deriving DecidableEq, Repr, Inhabited

/-- `xinput2_sys::XIDeviceEvent` fields read by `XIDeviceEvent::new`.  The
`buttons` and `valuators` sub-structs are flattened into the mask byte list
(whose length is `mask_len`) and the trailing value array. -/
structure RawXIDeviceEvent where
  time : Nat
  deviceid : Int
  sourceid : Int
  detail : Int
  root : XID
  event : XID
  child : XID
  root_x : F64
  root_y : F64
  event_x : F64
  event_y : F64
  flags : Int
  buttons_mask : List Nat
  valuators_mask : List Nat
  valuators_values : List F64
  mods : RawXIModifierState
  group : RawXIModifierState
deriving DecidableEq, Repr, Inhabited

/-- `xinput2_sys::XIRawEvent` fields read by `XIRawEvent::new`. -/
structure RawXIRawEvent where
  time : Nat
  deviceid : Int
  sourceid : Int
  detail : Int
  flags : Int
  valuators_mask : List Nat
  valuators_values : List F64
  raw_values : List F64
deriving DecidableEq, Repr, Inhabited

/-- `xinput2_sys::XITouchOwnershipEvent` fields read by
`XITouchOwnershipEvent::new`. -/
structure RawXITouchOwnershipEvent where
  time : Nat
  deviceid : Int
  sourceid : Int
  touchid : Nat
  root : XID
  event : XID
  child : XID
  flags : Int
deriving DecidableEq, Repr, Inhabited

/-- `xinput2_sys::XIHierarchyInfo` fields read by `XIHierarchyInfo::new`. -/
structure RawXIHierarchyInfo where
  deviceid : Int
  attachment : Int
  _use : Int
  enabled : Int
  flags : Int
deriving DecidableEq, Repr, Inhabited

/-- `xinput2_sys::XIHierarchyEvent` fields read by `XIHierarchyEvent::new`. -/
structure RawXIHierarchyEvent where
  time : Nat
  flags : Int
  info : List RawXIHierarchyInfo
deriving DecidableEq, Repr, Inhabited

/-- `xinput2_sys::XIBarrierEvent` fields read by `XIBarrierEvent::new`. -/
structure RawXIBarrierEvent where
  time : Nat
  deviceid : Int
  sourceid : Int
  event : XID
  root : XID
  root_x : F64
  root_y : F64
  dx : F64
  dy : F64
  dtime : Int
  flags : Int
  barrier : XID
  eventid : Nat
deriving DecidableEq, Repr, Inhabited

/-- `xinput2_sys::XIEnterEvent` fields read by `XIFocusEvent::new`. -/
structure RawXIEnterEvent where
  time : Nat
  deviceid : Int
  sourceid : Int
  detail : Int
  root : XID
  event : XID
  child : XID
  root_x : F64
  root_y : F64
  event_x : F64
  event_y : F64
  mode : Int
  focus : Int
  same_screen : Int
  buttons_mask : List Nat
  mods : RawXIModifierState
  group : RawXIModifierState
deriving DecidableEq, Repr, Inhabited

/-- `xinput2_sys::XIPropertyEvent` fields read by `XIPropertyEvent::new`. -/
structure RawXIPropertyEvent where
  time : Nat
  deviceid : Int
  property : XID
  what : Int
deriving DecidableEq, Repr, Inhabited

/-- The bytes behind the generic-event cookie's `data` pointer: whichever
XInput2 struct the sender stored there (or arbitrary other bytes, `blob`).
`XGetEventData` populates it; the per-arm pointer cast in `new_xinput2`
reinterprets it as the struct for the matched sub-type. -/
inductive XICookieData where
  | deviceChanged (e : RawXIDeviceChangedEvent)
  | device (e : RawXIDeviceEvent)
  | raw (e : RawXIRawEvent)
  | touchOwnership (e : RawXITouchOwnershipEvent)
  | hierarchy (e : RawXIHierarchyEvent)
  | barrier (e : RawXIBarrierEvent)
  | enter (e : RawXIEnterEvent)
  | property (e : RawXIPropertyEvent)
  | blob
deriving DecidableEq, Repr, Inhabited

/-- Reinterpretation of the cookie bytes as `XIDeviceChangedEvent`: a C
pointer cast always yields a struct, so a mismatched view yields the default
(garbage) struct. -/
def XICookieData.asDeviceChanged : XICookieData → RawXIDeviceChangedEvent
  | XICookieData.deviceChanged e => e
  | _ => default

/-- Reinterpretation of the cookie bytes as `XIDeviceEvent`. -/
def XICookieData.asDevice : XICookieData → RawXIDeviceEvent
  | XICookieData.device e => e
  | _ => default

/-- Reinterpretation of the cookie bytes as `XIRawEvent`. -/
def XICookieData.asRaw : XICookieData → RawXIRawEvent
  | XICookieData.raw e => e
  | _ => default

/-- Reinterpretation of the cookie bytes as `XITouchOwnershipEvent`. -/
def XICookieData.asTouchOwnership : XICookieData → RawXITouchOwnershipEvent
  | XICookieData.touchOwnership e => e
  | _ => default

/-- Reinterpretation of the cookie bytes as `XIHierarchyEvent`. -/
def XICookieData.asHierarchy : XICookieData → RawXIHierarchyEvent
  | XICookieData.hierarchy e => e
  | _ => default

/-- Reinterpretation of the cookie bytes as `XIBarrierEvent`. -/
def XICookieData.asBarrier : XICookieData → RawXIBarrierEvent
  | XICookieData.barrier e => e
  | _ => default

/-- Reinterpretation of the cookie bytes as `XIEnterEvent`. -/
def XICookieData.asEnter : XICookieData → RawXIEnterEvent
  | XICookieData.enter e => e
  | _ => default

/-- Reinterpretation of the cookie bytes as `XIPropertyEvent`. -/
def XICookieData.asProperty : XICookieData → RawXIPropertyEvent
  | XICookieData.property e => e
  | _ => default

/-- `xlib_sys::XGenericEventCookie` fields read by `new_generic` /
`new_xinput2`. -/
structure RawGenericEventCookie where
  extension : Int
  evtype : Int
  data : XICookieData
deriving DecidableEq, Repr, Inhabited

/-- The raw `xlib_sys::XEvent` union: the type tag plus every view the
decoder can read.  In C all views alias the same bytes; the embedding keeps
them as independent fields, which is a sound over-approximation for the
decoder (each arm reads only its own view). -/
structure RawXEvent where
  type_ : Int
  any : RawAnyEvent
  motion : RawMotionEvent
  button : RawButtonEvent
  colormap : RawColormapEvent
  crossing : RawCrossingEvent
  expose : RawExposeEvent
  focus_change : RawFocusChangeEvent
  keymap : RawKeymapEvent
  key : RawKeyEvent
  property : RawPropertyEvent
  resize_request : RawResizeRequestEvent
  circulate : RawCirculateEvent
  configure : RawConfigureEvent
  destroy_window : RawDestroyWindowEvent
  gravity : RawGravityEvent
  map : RawMapEvent
  reparent : RawReparentEvent
  unmap : RawUnmapEvent
  circulate_request : RawCirculateRequestEvent
  configure_request : RawConfigureRequestEvent
  map_request : RawMapRequestEvent
  client_message : RawClientMessageEvent
  mapping : RawMappingEvent
  selection_clear : RawSelectionClearEvent
  selection : RawSelectionEvent
  selection_request : RawSelectionRequestEvent
  visibility : RawVisibilityEvent
  xfixes_cursor_notify : RawXFixesCursorNotifyEvent
  generic_event_cookie : RawGenericEventCookie
deriving DecidableEq, Repr, Inhabited

/-! ## Decoded core event payloads (`event.rs`) and their converters -/

/-- `XMotionEvent` (`event.rs:1007`). -/
structure XMotionEvent where
  root : XWindow
  subwindow : XWindow
  time : Nat
  x : Int
  y : Int
  x_root : Int
  y_root : Int
  state : InputModifierMask
  is_hint : Bool
  same_screen : Bool
deriving DecidableEq, Repr, Inhabited

/-- `XMotionEvent::new` (`event.rs:1031`). -/
def XMotionEvent.new (event : RawMotionEvent) : XMotionEvent :=
  { root := XWindow.new event.root WindowHandleOwnership.Foreign
    subwindow := XWindow.new event.subwindow WindowHandleOwnership.Foreign
    time := event.time
    x := event.x
    y := event.y
    x_root := event.x_root
    y_root := event.y_root
    state := InputModifierMask.from_bits_retain event.state
    is_hint := event.is_hint = xlib_sys.NotifyHint
    same_screen := event.same_screen ≠ 0 }

/-- `XButtonEvent` (`event.rs:1083`). -/
structure XButtonEvent where
  root : XWindow
  subwindow : XWindow
  time : Nat
  x : Int
  y : Int
  x_root : Int
  y_root : Int
  state : InputModifierMask
  button : Nat
  same_screen : Bool
deriving DecidableEq, Repr, Inhabited

/-- `XButtonEvent::new` (`event.rs:1096`). -/
def XButtonEvent.new (event : RawButtonEvent) : XButtonEvent :=
  { root := XWindow.new event.root WindowHandleOwnership.Foreign
    subwindow := XWindow.new event.subwindow WindowHandleOwnership.Foreign
    time := event.time
    x := event.x
    y := event.y
    x_root := event.x_root
    y_root := event.y_root
    state := InputModifierMask.from_bits_retain event.state
    button := event.button
    same_screen := event.same_screen ≠ 0 }

/-- `XColormapEvent` (`event.rs:1285`).  The Rust field `new` is named
`is_new` here (after its getter) because `new` clashes with the converter. -/
structure XColormapEvent where
  colormap : XColormap
  is_new : Bool
  state : ColormapState
deriving DecidableEq, Repr, Inhabited

/-- `XColormapEvent::new` (`event.rs:1306`); panics inside
`ColormapState::new` on an invalid state. -/
def XColormapEvent.new (event : RawColormapEvent) : Option XColormapEvent :=
  (ColormapState.new event.state).map fun state =>
    { colormap := XColormap.new event.colormap ColormapHandleOwnership.Foreign
      is_new := event.new ≠ 0
      state := state }

/-- `XCrossingEvent` (`event.rs:1331`). -/
structure XCrossingEvent where
  root : XWindow
  subwindow : XWindow
  time : Nat
  x : Int
  y : Int
  x_root : Int
  y_root : Int
  detail : NotifyDetail
  same_screen : Bool
  focus : Bool
  state : InputModifierMask
deriving DecidableEq, Repr, Inhabited

/-- `XCrossingEvent::new` (`event.rs:1356`); panics inside
`NotifyDetail::new` on an invalid detail. -/
def XCrossingEvent.new (event : RawCrossingEvent) : Option XCrossingEvent :=
  (NotifyDetail.new event.detail).map fun detail =>
    { root := XWindow.new event.root WindowHandleOwnership.Foreign
      subwindow := XWindow.new event.subwindow WindowHandleOwnership.Foreign
      time := event.time
      x := event.x
      y := event.y
      x_root := event.x_root
      y_root := event.y_root
      detail := detail
      same_screen := event.same_screen ≠ 0
      focus := event.focus ≠ 0
      state := InputModifierMask.from_bits_retain event.state }

/-- `XExposeEvent` (`event.rs:1432`). -/
structure XExposeEvent where
  x : Int
  y : Int
  width : Int
  height : Int
  count : Int
deriving DecidableEq, Repr, Inhabited

/-- `XExposeEvent::new` (`event.rs:1446`). -/
def XExposeEvent.new (event : RawExposeEvent) : XExposeEvent :=
  { x := event.x, y := event.y, width := event.width, height := event.height
    count := event.count }

/-- `XFocusChangeEvent` (`event.rs:1487`). -/
structure XFocusChangeEvent where
  mode : NotifyMode
  detail : NotifyDetail
deriving DecidableEq, Repr, Inhabited

/-- `XFocusChangeEvent::new` (`event.rs:1502`); panics inside
`NotifyMode::new` / `NotifyDetail::new` on invalid values. -/
def XFocusChangeEvent.new (event : RawFocusChangeEvent) : Option XFocusChangeEvent :=
  (NotifyMode.new event.mode).bind fun mode =>
    (NotifyDetail.new event.detail).map fun detail =>
      { mode := mode, detail := detail }

/-- `XKeymapEvent` (`event.rs:1519`): the 32-byte key vector. -/
structure XKeymapEvent where
  key_vector : List Nat
deriving DecidableEq, Repr, Inhabited

/-- `XKeymapEvent::new` (`event.rs:1531`): copies the 32 key-vector bytes. -/
def XKeymapEvent.new (event : RawKeymapEvent) : XKeymapEvent :=
  { key_vector := event.key_vector }

/-- `XKeyEvent` (`event.rs:1194`). -/
structure XKeyEvent where
  root : XWindow
  subwindow : XWindow
  time : Nat
  x : Int
  y : Int
  x_root : Int
  y_root : Int
  state : InputModifierMask
  keycode : Nat
  same_screen : Bool
deriving DecidableEq, Repr, Inhabited

/-- `XKeyEvent::new` (`event.rs:1218`). -/
def XKeyEvent.new (event : RawKeyEvent) : XKeyEvent :=
  { root := XWindow.new event.root WindowHandleOwnership.Foreign
    subwindow := XWindow.new event.subwindow WindowHandleOwnership.Foreign
    time := event.time
    x := event.x
    y := event.y
    x_root := event.x_root
    y_root := event.y_root
    state := InputModifierMask.from_bits_retain event.state
    keycode := event.keycode
    same_screen := event.same_screen ≠ 0 }

/-- `XPropertyEvent` (`event.rs:1560`). -/
structure XPropertyEvent where
  atom : XAtom
  time : Nat
  state : PropertyState
deriving DecidableEq, Repr, Inhabited

/-- `XPropertyEvent::new` (`event.rs:1566`); panics inside
`PropertyState::new` on an invalid state. -/
def XPropertyEvent.new (event : RawPropertyEvent) : Option XPropertyEvent :=
  (PropertyState.new event.state).map fun state =>
    { atom := XAtom.new event.atom, time := event.time, state := state }

/-- `XResizeRequestEvent` (`event.rs:1589`). -/
structure XResizeRequestEvent where
  width : Int
  height : Int
deriving DecidableEq, Repr, Inhabited

/-- `XResizeRequestEvent::new` (`event.rs:1601`). -/
def XResizeRequestEvent.new (event : RawResizeRequestEvent) : XResizeRequestEvent :=
  { width := event.width, height := event.height }

/-- `XCirculateEvent` (`event.rs:1620`). -/
structure XCirculateEvent where
  window : XWindow
  place : CirculatePlace
deriving DecidableEq, Repr, Inhabited

/-- `XCirculateEvent::new` (`event.rs:1636`); panics inside
`CirculatePlace::new` on an invalid place. -/
def XCirculateEvent.new (event : RawCirculateEvent) : Option XCirculateEvent :=
  (CirculatePlace.new event.place).map fun place =>
    { window := XWindow.new event.window WindowHandleOwnership.Foreign, place := place }

/-- `XConfigureEvent` (`event.rs:1654`). -/
structure XConfigureEvent where
  window : XWindow
  x : Int
  y : Int
  width : Int
  height : Int
  border_width : Int
  above : Option XWindow
  override_redirect : Bool
deriving DecidableEq, Repr, Inhabited

/-- `XConfigureEvent::new` (`event.rs:1676`). -/
def XConfigureEvent.new (event : RawConfigureEvent) : XConfigureEvent :=
  { window := XWindow.new event.window WindowHandleOwnership.Foreign
    x := event.x
    y := event.y
    width := event.width
    height := event.height
    border_width := event.border_width
    above :=
      if event.above = 0 then none
      else some (XWindow.new event.above WindowHandleOwnership.Foreign)
    override_redirect := event.override_redirect ≠ 0 }

/-- `XDestroyWindowEvent` (`event.rs:1742`). -/
structure XDestroyWindowEvent where
  window : XWindow
deriving DecidableEq, Repr, Inhabited

/-- `XDestroyWindowEvent::new` (`event.rs:1757`). -/
def XDestroyWindowEvent.new (event : RawDestroyWindowEvent) : XDestroyWindowEvent :=
  { window := XWindow.new event.window WindowHandleOwnership.Foreign }

/-- `XGravityEvent` (`event.rs:1770`). -/
structure XGravityEvent where
  window : XWindow
  x : Int
  y : Int
deriving DecidableEq, Repr, Inhabited

/-- `XGravityEvent::new` (`event.rs:1787`). -/
def XGravityEvent.new (event : RawGravityEvent) : XGravityEvent :=
  { window := XWindow.new event.window WindowHandleOwnership.Foreign
    x := event.x, y := event.y }

/-- `XMapEvent` (`event.rs:1811`). -/
structure XMapEvent where
  window : XWindow
  override_redirect : Bool
deriving DecidableEq, Repr, Inhabited

/-- `XMapEvent::new` (`event.rs:1828`). -/
def XMapEvent.new (event : RawMapEvent) : XMapEvent :=
  { window := XWindow.new event.window WindowHandleOwnership.Foreign
    override_redirect := event.override_redirect ≠ 0 }

/-- `XReparentEvent` (`event.rs:1846`). -/
structure XReparentEvent where
  window : XWindow
  parent : XWindow
  x : Int
  y : Int
  override_redirect : Bool
deriving DecidableEq, Repr, Inhabited

/-- `XReparentEvent::new` (`event.rs:1866`). -/
def XReparentEvent.new (event : RawReparentEvent) : XReparentEvent :=
  { window := XWindow.new event.window WindowHandleOwnership.Foreign
    parent := XWindow.new event.parent WindowHandleOwnership.Foreign
    x := event.x
    y := event.y
    override_redirect := event.override_redirect ≠ 0 }

/-- `XUnmapEvent` (`event.rs:1905`). -/
structure XUnmapEvent where
  window : XWindow
  from_configure : Bool
deriving DecidableEq, Repr, Inhabited

/-- `XUnmapEvent::new` (`event.rs:1919`). -/
def XUnmapEvent.new (event : RawUnmapEvent) : XUnmapEvent :=
  { window := XWindow.new event.window WindowHandleOwnership.Foreign
    from_configure := event.from_configure ≠ 0 }

/-- `XCirculateRequestEvent` (`event.rs:1938`). -/
structure XCirculateRequestEvent where
  window : XWindow
  place : CirculatePlace
deriving DecidableEq, Repr, Inhabited

/-- `XCirculateRequestEvent::new` (`event.rs:1954`); panics inside
`CirculatePlace::new` on an invalid place. -/
def XCirculateRequestEvent.new (event : RawCirculateRequestEvent) : Option XCirculateRequestEvent :=
  (CirculatePlace.new event.place).map fun place =>
    { window := XWindow.new event.window WindowHandleOwnership.Foreign, place := place }

/-- `XConfigureRequestEvent` (`event.rs:1972`). -/
structure XConfigureRequestEvent where
  window : XWindow
  x : Int
  y : Int
  width : Int
  height : Int
  border_width : Int
  above : XWindow
  detail : ConfigureDetail
  value_mask : Nat
deriving DecidableEq, Repr, Inhabited

/-- `XConfigureRequestEvent::new` (`event.rs:1996`); panics inside
`ConfigureDetail::new` on an invalid detail. -/
def XConfigureRequestEvent.new (event : RawConfigureRequestEvent) : Option XConfigureRequestEvent :=
  (ConfigureDetail.new event.detail).map fun detail =>
    { window := XWindow.new event.window WindowHandleOwnership.Foreign
      x := event.x
      y := event.y
      width := event.width
      height := event.height
      border_width := event.border_width
      above := XWindow.new event.above WindowHandleOwnership.Foreign
      detail := detail
      value_mask := event.value_mask }

/-- `XMapRequestEvent` (`event.rs:2059`). -/
structure XMapRequestEvent where
  window : XWindow
deriving DecidableEq, Repr, Inhabited

/-- `XMapRequestEvent::new` (`event.rs:2074`). -/
def XMapRequestEvent.new (event : RawMapRequestEvent) : XMapRequestEvent :=
  { window := XWindow.new event.window WindowHandleOwnership.Foreign }

/-- `XClientMessageEvent` (`event.rs:2087`). -/
structure XClientMessageEvent where
  message_type : XAtom
  data : ClientMessageData
deriving DecidableEq, Repr, Inhabited

/-- `XClientMessageEvent::new` (`event.rs:2103`): reads the data union
through the accessor matching the format; panics (`unreachable!`) on a
format outside `{8, 16, 32}`. -/
def XClientMessageEvent.new (event : RawClientMessageEvent) : Option XClientMessageEvent :=
  (if event.format = 8 then
     some (ClientMessageData.Bit8 ((List.range 20).map fun i => event.data_bytes.getD i 0))
   else if event.format = 16 then
     some (ClientMessageData.Bit16 ((List.range 10).map fun i => event.data_shorts.getD i 0))
   else if event.format = 32 then
     some (ClientMessageData.Bit32 ((List.range 5).map fun i => event.data_longs.getD i 0))
   else none).map fun data =>
    { message_type := XAtom.new event.message_type, data := data }

/-- `XMappingEvent` (`event.rs:2154`). -/
structure XMappingEvent where
  request : MappingRequestType
  first_keycode : Int
  count : Int
deriving DecidableEq, Repr, Inhabited

/-- `XMappingEvent::new` (`event.rs:2167`); panics inside
`MappingRequestType::new` on an invalid request. -/
def XMappingEvent.new (event : RawMappingEvent) : Option XMappingEvent :=
  (MappingRequestType.new event.request).map fun request =>
    { request := request, first_keycode := event.first_keycode, count := event.count }

/-- `XSelectionClearEvent` (`event.rs:2191`). -/
structure XSelectionClearEvent where
  selection : XAtom
  time : Nat
deriving DecidableEq, Repr, Inhabited

/-- `XSelectionClearEvent::new` (`event.rs:2208`). -/
def XSelectionClearEvent.new (event : RawSelectionClearEvent) : XSelectionClearEvent :=
  { selection := XAtom.new event.selection, time := event.time }

/-- `XSelectionEvent` (`event.rs:2228`). -/
structure XSelectionEvent where
  selection : XAtom
  target : XAtom
  property : Option XAtom
  time : Nat
deriving DecidableEq, Repr, Inhabited

/-- `XSelectionEvent::new` (`event.rs:2245`). -/
def XSelectionEvent.new (event : RawSelectionEvent) : XSelectionEvent :=
  { selection := XAtom.new event.selection
    target := XAtom.new event.target
    property := if event.property = 0 then none else some (XAtom.new event.property)
    time := event.time }

/-- `XSelectionRequestEvent` (`event.rs:2283`). -/
structure XSelectionRequestEvent where
  requestor : XWindow
  selection : XAtom
  target : XAtom
  property : XAtom
  time : Nat
deriving DecidableEq, Repr, Inhabited

/-- `XSelectionRequestEvent::new` (`event.rs:2299`). -/
def XSelectionRequestEvent.new (event : RawSelectionRequestEvent) : XSelectionRequestEvent :=
  { requestor := XWindow.new event.requestor WindowHandleOwnership.Foreign
    selection := XAtom.new event.selection
    target := XAtom.new event.target
    property := XAtom.new event.property
    time := event.time }

/-- `XVisibilityEvent` (`event.rs:2336`). -/
structure XVisibilityEvent where
  state : VisibilityState
deriving DecidableEq, Repr, Inhabited

/-- `XVisibilityEvent::new` (`event.rs:2346`); panics inside
`VisibilityState::new` on an invalid state. -/
def XVisibilityEvent.new (event : RawVisibilityEvent) : Option XVisibilityEvent :=
  (VisibilityState.new event.state).map fun state => { state := state }

/-- `XDisplayCursorEvent` (`event.rs:2377`). -/
structure XDisplayCursorEvent where
  subtype : XDisplayCursorEventSubtype
  cursor_serial : Nat
  timestamp : Nat
  cursor_name : XAtom
deriving DecidableEq, Repr, Inhabited

/-- `XDisplayCursorEvent::new` (`event.rs:2395`); panics inside
`XDisplayCursorEventSubtype::new` on an invalid subtype. -/
def XDisplayCursorEvent.new (event : RawXFixesCursorNotifyEvent) : Option XDisplayCursorEvent :=
  (XDisplayCursorEventSubtype.new event.subtype).map fun subtype =>
    { subtype := subtype
      cursor_serial := event.cursor_serial
      timestamp := event.timestamp
      cursor_name := XAtom.new event.cursor_name }

/-! ## Decoded XInput2 payloads and the mask/value pairing (`event.rs`) -/

/-- `XIButtonState` (`event.rs:2508`). -/
structure XIButtonState where
  mask : List Nat
deriving DecidableEq, Repr, Inhabited

/-- `XIButtonState::new` (`event.rs:2518`). -/
def XIButtonState.new (mask : List Nat) : XIButtonState := { mask := mask }

/-- `XIValuatorState` (`event.rs:2886`). -/
structure XIValuatorState where
  mask : List Nat
  values : List F64
deriving DecidableEq, Repr, Inhabited

/-- `XIValuatorState::new` (`event.rs:2898`). -/
def XIValuatorState.new (mask : List Nat) (values : List F64) : XIValuatorState :=
  { mask := mask, values := values }

/-- `XIModifierState` (`event.rs:2914`). -/
structure XIModifierState where
  base : Int
  latched : Int
  locked : Int
  effective : Int
deriving DecidableEq, Repr, Inhabited

/-- `XIModifierState::new` (`event.rs:2927`). -/
def XIModifierState.new (state : RawXIModifierState) : XIModifierState :=
  { base := state.base, latched := state.latched, locked := state.locked
    effective := state.effective }

/-- `xinput2_sys::XIMaskIsSet` (x11 crate):
`mask[bit >> 3] & (1 << (bit & 7)) != 0`.  The decoder only queries bits
below `mask.length * 8`, where `getD _ 0` agrees with the Rust indexing. -/
def xinput2_sys.XIMaskIsSet (mask : List Nat) (bit : Nat) : Bool :=
  (mask.getD (bit / 8) 0) &&& (1 <<< (bit % 8)) ≠ 0

/-- The loop of `XIDeviceEvent::new` (`event.rs:2998`): walk the given bit
indices; for each set bit consume the next entry of the value array.
`none` models the out-of-bounds read the C code would perform if the value
array held fewer entries than the mask has set bits. -/
def collectValuatorValues (mask : List Nat) : List Nat → List F64 → Option (List F64)
  | [], _ => some []
  | i :: rest, values =>
    if xinput2_sys.XIMaskIsSet mask i then
      match values with
      | [] => none
      | v :: vs => (collectValuatorValues mask rest vs).map fun out => v :: out
    else
      collectValuatorValues mask rest values

/-- The loop of `XIRawEvent::new` (`event.rs:3140`): identical to
`collectValuatorValues` but consuming the valuator array and the raw-value
array in lockstep under the same mask. -/
def collectValuatorValues2 (mask : List Nat) :
    List Nat → List F64 → List F64 → Option (List F64 × List F64)
  | [], _, _ => some ([], [])
  | i :: rest, values, raws =>
    if xinput2_sys.XIMaskIsSet mask i then
      match values, raws with
      | v :: vs, r :: rs =>
        (collectValuatorValues2 mask rest vs rs).map fun out => (v :: out.1, r :: out.2)
      | _, _ => none
    else
      collectValuatorValues2 mask rest values raws

/-- The ascending list of set bit indices of a mask: the order in which the
decode loops pair mask bits with value-array entries. -/
def maskSetBits (mask : List Nat) : List Nat :=
  (List.range (mask.length * 8)).filter fun i => xinput2_sys.XIMaskIsSet mask i

/-- `XIClassInfo` (`event.rs:2616`). -/
inductive XIClassInfo where
  | Button (source : XInputDevice) (labels : List XAtom) (state : XIButtonState)
  | Key (source : XInputDevice) (key_codes : List Int)
  | Valuator (source : XInputDevice) (number : Int) (label : Option XAtom)
      (min max value : F64) (resolution : Int) (mode : XIValuatorMode)
  | Scroll (source : XInputDevice) (number : Int) (ty : XIScrollType) (increment : F64)
      (flags : Int)
  | Touch (source : XInputDevice) (mode : XITouchMode) (num_touches : Nat)
deriving DecidableEq, Repr, Inhabited

/-- `XIClassInfo::new` (`event.rs:2650`): dispatch on the class `_type`
discriminant (which the `RawXIClassInfo` constructor fixes), panicking on an
unknown class type or on invalid mode / scroll-type / touch-mode values. -/
def XIClassInfo.new (handle : RawXIClassInfo) : Option XIClassInfo :=
  match handle with
  | RawXIClassInfo.key sourceid keycodes =>
    some (XIClassInfo.Key (XInputDevice.from_id sourceid) keycodes)
  | RawXIClassInfo.button sourceid labels mask =>
    some (XIClassInfo.Button (XInputDevice.from_id sourceid)
      (labels.map XAtom.new) (XIButtonState.new mask))
  | RawXIClassInfo.valuator sourceid number label min max value resolution mode =>
    (XIValuatorMode.new mode).map fun m =>
      XIClassInfo.Valuator (XInputDevice.from_id sourceid) number
        (if label = 0 then none else some (XAtom.new label)) min max value resolution m
  | RawXIClassInfo.scroll sourceid number scroll_type increment flags =>
    (XIScrollType.new scroll_type).map fun ty =>
      XIClassInfo.Scroll (XInputDevice.from_id sourceid) number ty increment flags
  | RawXIClassInfo.touch sourceid mode num_touches =>
    (XITouchMode.new mode).map fun m =>
      XIClassInfo.Touch (XInputDevice.from_id sourceid) m num_touches
  | RawXIClassInfo.other _ => none

/-- `XIDeviceChangedEvent` (`event.rs:2807`). -/
structure XIDeviceChangedEvent where
  time : Nat
  device : XInputDevice
  source : XInputDevice
  reason : XIDeviceChangeReason
  classes : List XIClassInfo
deriving DecidableEq, Repr, Inhabited

/-- `XIDeviceChangedEvent::new` (`event.rs:2826`). -/
def XIDeviceChangedEvent.new (event : RawXIDeviceChangedEvent) : Option XIDeviceChangedEvent :=
  (XIDeviceChangeReason.new event.reason).bind fun reason =>
    (event.classes.mapM XIClassInfo.new).map fun classes =>
      { time := event.time
        device := XInputDevice.from_id event.deviceid
        source := XInputDevice.from_id event.sourceid
        reason := reason
        classes := classes }

/-- `XIDeviceEvent` (`event.rs:2958`). -/
structure XIDeviceEvent where
  time : Nat
  device : XInputDevice
  source : XInputDevice
  detail : Int
  root : XWindow
  event : XWindow
  child : XWindow
  root_x : F64
  root_y : F64
  event_x : F64
  event_y : F64
  flags : Int
  buttons : XIButtonState
  valuators : XIValuatorState
  modifiers : XIModifierState
  group : XIModifierState
deriving DecidableEq, Repr, Inhabited

/-- `XIDeviceEvent::new` (`event.rs:2988`): pairs the valuator mask with the
value array via the set-bit loop, wraps every window handle as Foreign. -/
def XIDeviceEvent.new (event : RawXIDeviceEvent) : Option XIDeviceEvent :=
  (collectValuatorValues event.valuators_mask
      (List.range (event.valuators_mask.length * 8)) event.valuators_values).map
    fun valuator_values =>
      { time := event.time
        device := XInputDevice.from_id event.deviceid
        source := XInputDevice.from_id event.sourceid
        detail := event.detail
        root := XWindow.new event.root WindowHandleOwnership.Foreign
        event := XWindow.new event.event WindowHandleOwnership.Foreign
        child := XWindow.new event.child WindowHandleOwnership.Foreign
        root_x := event.root_x
        root_y := event.root_y
        event_x := event.event_x
        event_y := event.event_y
        flags := event.flags
        buttons := XIButtonState.new event.buttons_mask
        valuators := XIValuatorState.new event.valuators_mask valuator_values
        modifiers := XIModifierState.new event.mods
        group := XIModifierState.new event.group }

/-- `XIRawEvent` (`event.rs:3109`). -/
structure XIRawEvent where
  time : Nat
  device : XInputDevice
  source : XInputDevice
  detail : Int
  flags : Int
  valuators : XIValuatorState
  raw_values : List F64
deriving DecidableEq, Repr, Inhabited

/-- `XIRawEvent::new` (`event.rs:3130`): pairs the mask with the valuator
array and the raw-value array in lockstep. -/
def XIRawEvent.new (event : RawXIRawEvent) : Option XIRawEvent :=
  (collectValuatorValues2 event.valuators_mask
      (List.range (event.valuators_mask.length * 8))
      event.valuators_values event.raw_values).map
    fun out =>
      { time := event.time
        device := XInputDevice.from_id event.deviceid
        source := XInputDevice.from_id event.sourceid
        detail := event.detail
        flags := event.flags
        valuators := XIValuatorState.new event.valuators_mask out.1
        raw_values := out.2 }

/-- `XITouchOwnershipEvent` (`event.rs:3205`). -/
structure XITouchOwnershipEvent where
  time : Nat
  device : XInputDevice
  source : XInputDevice
  touch_id : Nat
  root : XWindow
  event : XWindow
  child : XWindow
  flags : Int
deriving DecidableEq, Repr, Inhabited

/-- `XITouchOwnershipEvent::new` (`event.rs:3228`). -/
def XITouchOwnershipEvent.new (event : RawXITouchOwnershipEvent) : XITouchOwnershipEvent :=
  { time := event.time
    device := XInputDevice.from_id event.deviceid
    source := XInputDevice.from_id event.sourceid
    touch_id := event.touchid
    root := XWindow.new event.root WindowHandleOwnership.Foreign
    event := XWindow.new event.event WindowHandleOwnership.Foreign
    child := XWindow.new event.child WindowHandleOwnership.Foreign
    flags := event.flags }

/-- `XIHierarchyInfo` (`event.rs:2455`). -/
structure XIHierarchyInfo where
  device : XInputDevice
  attachment : Int
  usage : Int
  enabled : Bool
  flags : Int
deriving DecidableEq, Repr, Inhabited

/-- `XIHierarchyInfo::new` (`event.rs:2471`). -/
def XIHierarchyInfo.new (handle : RawXIHierarchyInfo) : XIHierarchyInfo :=
  { device := XInputDevice.from_id handle.deviceid
    attachment := handle.attachment
    usage := handle._use
    enabled := handle.enabled ≠ 0
    flags := handle.flags }

/-- `XIHierarchyEvent` (`event.rs:2733`). -/
structure XIHierarchyEvent where
  time : Nat
  flags : Int
  info : List XIHierarchyInfo
deriving DecidableEq, Repr, Inhabited

/-- `XIHierarchyEvent::new` (`event.rs:2751`). -/
def XIHierarchyEvent.new (event : RawXIHierarchyEvent) : XIHierarchyEvent :=
  { time := event.time
    flags := event.flags
    info := event.info.map XIHierarchyInfo.new }

/-- `XIBarrierEvent` (`event.rs:3293`). -/
structure XIBarrierEvent where
  time : Nat
  device : XInputDevice
  source : XInputDevice
  event : XWindow
  root : XWindow
  root_x : F64
  root_y : F64
  dx : F64
  dy : F64
  dtime : Int
  flags : Int
  barrier : XID
  event_id : Nat
deriving DecidableEq, Repr, Inhabited

/-- `XIBarrierEvent::new` (`event.rs:3320`). -/
def XIBarrierEvent.new (event : RawXIBarrierEvent) : XIBarrierEvent :=
  { time := event.time
    device := XInputDevice.from_id event.deviceid
    source := XInputDevice.from_id event.sourceid
    event := XWindow.new event.event WindowHandleOwnership.Foreign
    root := XWindow.new event.root WindowHandleOwnership.Foreign
    root_x := event.root_x
    root_y := event.root_y
    dx := event.dx
    dy := event.dy
    dtime := event.dtime
    flags := event.flags
    barrier := event.barrier
    event_id := event.eventid }

/-- `XIFocusEvent` (`event.rs:3470`). -/
structure XIFocusEvent where
  time : Nat
  device : XInputDevice
  source : XInputDevice
  detail : XIFocusEventDetail
  root : XWindow
  event : XWindow
  child : XWindow
  root_x : F64
  root_y : F64
  event_x : F64
  event_y : F64
  mode : XIFocusEventMode
  focus : Bool
  same_screen : Bool
  buttons : XIButtonState
  modifiers : XIModifierState
  group : XIModifierState
deriving DecidableEq, Repr, Inhabited

/-- `XIFocusEvent::new` (`event.rs:3500`); panics inside
`XIFocusEventDetail::new` / `XIFocusEventMode::new` on invalid values. -/
def XIFocusEvent.new (event : RawXIEnterEvent) : Option XIFocusEvent :=
  (XIFocusEventDetail.new event.detail).bind fun detail =>
    (XIFocusEventMode.new event.mode).map fun mode =>
      { time := event.time
        device := XInputDevice.from_id event.deviceid
        source := XInputDevice.from_id event.sourceid
        detail := detail
        root := XWindow.new event.root WindowHandleOwnership.Foreign
        event := XWindow.new event.event WindowHandleOwnership.Foreign
        child := XWindow.new event.child WindowHandleOwnership.Foreign
        root_x := event.root_x
        root_y := event.root_y
        event_x := event.event_x
        event_y := event.event_y
        mode := mode
        focus := event.focus ≠ 0
        same_screen := event.same_screen ≠ 0
        buttons := XIButtonState.new event.buttons_mask
        modifiers := XIModifierState.new event.mods
        group := XIModifierState.new event.group }

/-- `XIPropertyEvent` (`event.rs:3635`). -/
structure XIPropertyEvent where
  time : Nat
  device : XInputDevice
  property : XAtom
  what : XIPropertyEventChange
deriving DecidableEq, Repr, Inhabited

/-- `XIPropertyEvent::new` (`event.rs:3655`); panics inside
`XIPropertyEventChange::new` on an invalid value. -/
def XIPropertyEvent.new (event : RawXIPropertyEvent) : Option XIPropertyEvent :=
  (XIPropertyEventChange.new event.what).map fun what =>
    { time := event.time
      device := XInputDevice.from_id event.deviceid
      property := XAtom.new event.property
      what := what }

/-! ## The decoded event payload sum type (`event.rs:337`) -/

set_option maxHeartbeats 3200000 in
/-- `XEventData` (`event.rs:337`): one arm per protocol event type, plus the
`Unknown` catch-all carrying the raw event. -/
inductive XEventData where
  | Motion (e : XMotionEvent)
  | KeyPress (e : XKeyEvent)
  | KeyRelease (e : XKeyEvent)
  | ButtonPress (e : XButtonEvent)
  | ButtonRelease (e : XButtonEvent)
  | ColormapChange (e : XColormapEvent)
  | EnterWindow (e : XCrossingEvent)
  | LeaveWindow (e : XCrossingEvent)
  | Expose (e : XExposeEvent)
  | FocusIn (e : XFocusChangeEvent)
  | FocusOut (e : XFocusChangeEvent)
  | KeymapChange (e : XKeymapEvent)
  | PropertyChange (e : XPropertyEvent)
  | ResizeRequest (e : XResizeRequestEvent)
  | Circulate (e : XCirculateEvent)
  | Configure (e : XConfigureEvent)
  | Destroy (e : XDestroyWindowEvent)
  | Gravity (e : XGravityEvent)
  | Map (e : XMapEvent)
  | Reparent (e : XReparentEvent)
  | Unmap (e : XUnmapEvent)
  | CirculateRequest (e : XCirculateRequestEvent)
  | ConfigureRequest (e : XConfigureRequestEvent)
  | MapRequest (e : XMapRequestEvent)
  | ClientMessage (e : XClientMessageEvent)
  | Mapping (e : XMappingEvent)
  | SelectionClear (e : XSelectionClearEvent)
  | Selection (e : XSelectionEvent)
  | SelectionRequest (e : XSelectionRequestEvent)
  | VisibilityChange (e : XVisibilityEvent)
  | CursorChanged (e : XDisplayCursorEvent)
  | XIDeviceChanged (e : XIDeviceChangedEvent)
  | XIKeyPressed (e : XIDeviceEvent)
  | XIKeyReleased (e : XIDeviceEvent)
  | XIButtonPressed (e : XIDeviceEvent)
  | XIButtonReleased (e : XIDeviceEvent)
  | XITouchBegin (e : XIDeviceEvent)
  | XITouchEnd (e : XIDeviceEvent)
  | XITouchUpdate (e : XIDeviceEvent)
  | XITouchOwnershipChanged (e : XITouchOwnershipEvent)
  | XIMotion (e : XIDeviceEvent)
  | XIHierarchyChanged (e : XIHierarchyEvent)
  | XIRawKeyPressed (e : XIRawEvent)
  | XIRawKeyReleased (e : XIRawEvent)
  | XIRawButtonPressed (e : XIRawEvent)
  | XIRawButtonReleased (e : XIRawEvent)
  | XIRawTouchBegin (e : XIRawEvent)
  | XIRawTouchEnd (e : XIRawEvent)
  | XIRawTouchUpdated (e : XIRawEvent)
  | XIRawMotion (e : XIRawEvent)
  | XIBarrierHit (e : XIBarrierEvent)
  | XIBarrierLeft (e : XIBarrierEvent)
  | XIEntered (e : XIFocusEvent)
  | XILeft (e : XIFocusEvent)
  | XIFocusIn (e : XIFocusEvent)
  | XIFocusOut (e : XIFocusEvent)
  | XIPropertyChanged (e : XIPropertyEvent)
  | Unknown (raw : RawXEvent)
deriving Repr, Inhabited

/-! ## The decode functions (`event.rs:697`, `event.rs:789`, `event.rs:809`)

Decode results are paired with the number of `XFreeEventData` calls issued,
so the resource-release discipline of the generic path can be stated.  A
`none` result models a panic (an `unreachable!` reached inside a payload
conversion), in which case the count holds the frees issued before the
panic. -/

/-- `XEventData::new_xinput2` (`event.rs:809`): third-level dispatch on the
extension sub-type code (a Rust `match` on `event_cookie.evtype` against the
`xinput2_sys::XI_*` constants; the Lean patterns are those constants'
values).  `XGetEventData` has populated the cookie; each arm reinterprets the
payload, converts it, then calls `XFreeEventData` once; the fallback arm
calls `XFreeEventData` and yields `Unknown`. -/
def XEventData.new_xinput2 (event : RawXEvent) : Option XEventData × Nat :=
  let cookie := event.generic_event_cookie
  match cookie.evtype with
  | 1 =>  -- xinput2_sys.XI_DeviceChanged
    (match XIDeviceChangedEvent.new cookie.data.asDeviceChanged with
     | none => (none, 0)
     | some converted => (some (XEventData.XIDeviceChanged converted), 1))
  | 2 =>  -- xinput2_sys.XI_KeyPress
    (match XIDeviceEvent.new cookie.data.asDevice with
     | none => (none, 0)
     | some converted => (some (XEventData.XIKeyPressed converted), 1))
  | 3 =>  -- xinput2_sys.XI_KeyRelease
    (match XIDeviceEvent.new cookie.data.asDevice with
     | none => (none, 0)
     | some converted => (some (XEventData.XIKeyReleased converted), 1))
  | 4 =>  -- xinput2_sys.XI_ButtonPress
    (match XIDeviceEvent.new cookie.data.asDevice with
     | none => (none, 0)
     | some converted => (some (XEventData.XIButtonPressed converted), 1))
  | 5 =>  -- xinput2_sys.XI_ButtonRelease
    (match XIDeviceEvent.new cookie.data.asDevice with
     | none => (none, 0)
     | some converted => (some (XEventData.XIButtonReleased converted), 1))
  | 18 =>  -- xinput2_sys.XI_TouchBegin
    (match XIDeviceEvent.new cookie.data.asDevice with
     | none => (none, 0)
     | some converted => (some (XEventData.XITouchBegin converted), 1))
  | 20 =>  -- xinput2_sys.XI_TouchEnd
    (match XIDeviceEvent.new cookie.data.asDevice with
     | none => (none, 0)
     | some converted => (some (XEventData.XITouchEnd converted), 1))
  | 19 =>  -- xinput2_sys.XI_TouchUpdate
    (match XIDeviceEvent.new cookie.data.asDevice with
     | none => (none, 0)
     | some converted => (some (XEventData.XITouchUpdate converted), 1))
  | 21 =>  -- xinput2_sys.XI_TouchOwnership
    (some (XEventData.XITouchOwnershipChanged
      (XITouchOwnershipEvent.new cookie.data.asTouchOwnership)), 1)
  | 6 =>  -- xinput2_sys.XI_Motion
    (match XIDeviceEvent.new cookie.data.asDevice with
     | none => (none, 0)
     | some converted => (some (XEventData.XIMotion converted), 1))
  | 11 =>  -- xinput2_sys.XI_HierarchyChanged
    (some (XEventData.XIHierarchyChanged
      (XIHierarchyEvent.new cookie.data.asHierarchy)), 1)
  | 13 =>  -- xinput2_sys.XI_RawKeyPress
    (match XIRawEvent.new cookie.data.asRaw with
     | none => (none, 0)
     | some converted => (some (XEventData.XIRawKeyPressed converted), 1))
  | 14 =>  -- xinput2_sys.XI_RawKeyRelease
    (match XIRawEvent.new cookie.data.asRaw with
     | none => (none, 0)
     | some converted => (some (XEventData.XIRawKeyReleased converted), 1))
  | 15 =>  -- xinput2_sys.XI_RawButtonPress
    (match XIRawEvent.new cookie.data.asRaw with
     | none => (none, 0)
     | some converted => (some (XEventData.XIRawButtonPressed converted), 1))
  | 16 =>  -- xinput2_sys.XI_RawButtonRelease
    (match XIRawEvent.new cookie.data.asRaw with
     | none => (none, 0)
     | some converted => (some (XEventData.XIRawButtonReleased converted), 1))
  | 22 =>  -- xinput2_sys.XI_RawTouchBegin
    (match XIRawEvent.new cookie.data.asRaw with
     | none => (none, 0)
     | some converted => (some (XEventData.XIRawTouchBegin converted), 1))
  | 24 =>  -- xinput2_sys.XI_RawTouchEnd
    (match XIRawEvent.new cookie.data.asRaw with
     | none => (none, 0)
     | some converted => (some (XEventData.XIRawTouchEnd converted), 1))
  | 23 =>  -- xinput2_sys.XI_RawTouchUpdate
    (match XIRawEvent.new cookie.data.asRaw with
     | none => (none, 0)
     | some converted => (some (XEventData.XIRawTouchUpdated converted), 1))
  | 17 =>  -- xinput2_sys.XI_RawMotion
    (match XIRawEvent.new cookie.data.asRaw with
     | none => (none, 0)
     | some converted => (some (XEventData.XIRawMotion converted), 1))
  | 25 =>  -- xinput2_sys.XI_BarrierHit
    (some (XEventData.XIBarrierHit (XIBarrierEvent.new cookie.data.asBarrier)), 1)
  | 26 =>  -- xinput2_sys.XI_BarrierLeave
    (some (XEventData.XIBarrierLeft (XIBarrierEvent.new cookie.data.asBarrier)), 1)
  | 7 =>  -- xinput2_sys.XI_Enter
    (match XIFocusEvent.new cookie.data.asEnter with
     | none => (none, 0)
     | some converted => (some (XEventData.XIEntered converted), 1))
  | 8 =>  -- xinput2_sys.XI_Leave
    (match XIFocusEvent.new cookie.data.asEnter with
     | none => (none, 0)
     | some converted => (some (XEventData.XILeft converted), 1))
  | 9 =>  -- xinput2_sys.XI_FocusIn
    (match XIFocusEvent.new cookie.data.asEnter with
     | none => (none, 0)
     | some converted => (some (XEventData.XIFocusIn converted), 1))
  | 10 =>  -- xinput2_sys.XI_FocusOut
    (match XIFocusEvent.new cookie.data.asEnter with
     | none => (none, 0)
     | some converted => (some (XEventData.XIFocusOut converted), 1))
  | 12 =>  -- xinput2_sys.XI_PropertyEvent
    (match XIPropertyEvent.new cookie.data.asProperty with
     | none => (none, 0)
     | some converted => (some (XEventData.XIPropertyChanged converted), 1))
  | _ =>
    (some (XEventData.Unknown event), 1)

/-- `XEventData::new_generic` (`event.rs:789`): if the carried extension
opcode matches the cached xinput2 opcode, run the xinput2 sub-decode;
otherwise yield `Unknown` — note the source issues no `XGetEventData` and no
`XFreeEventData` on the non-matching path. -/
def XEventData.new_generic (event : RawXEvent) (display : XDisplay) : Option XEventData × Nat :=
  if event.generic_event_cookie.extension = display.xinput2_opcode then
    XEventData.new_xinput2 event
  else
    (some (XEventData.Unknown event), 0)

/-- `XEventData::new` (`event.rs:697`): the outer dispatch on the event type
tag, in source order, ending with the dynamic xfixes cursor-notify arm and
the `Unknown` fallback. -/
def XEventData.new (event : RawXEvent) (display : XDisplay) : Option XEventData × Nat :=
  if event.type_ = xlib_sys.MotionNotify then
    (some (XEventData.Motion (XMotionEvent.new event.motion)), 0)
  else if event.type_ = xlib_sys.ButtonPress then
    (some (XEventData.ButtonPress (XButtonEvent.new event.button)), 0)
  else if event.type_ = xlib_sys.ButtonRelease then
    (some (XEventData.ButtonRelease (XButtonEvent.new event.button)), 0)
  else if event.type_ = xlib_sys.ColormapNotify then
    ((XColormapEvent.new event.colormap).map XEventData.ColormapChange, 0)
  else if event.type_ = xlib_sys.EnterNotify then
    ((XCrossingEvent.new event.crossing).map XEventData.EnterWindow, 0)
  else if event.type_ = xlib_sys.LeaveNotify then
    ((XCrossingEvent.new event.crossing).map XEventData.LeaveWindow, 0)
  else if event.type_ = xlib_sys.Expose then
    (some (XEventData.Expose (XExposeEvent.new event.expose)), 0)
  else if event.type_ = xlib_sys.FocusIn then
    ((XFocusChangeEvent.new event.focus_change).map XEventData.FocusIn, 0)
  else if event.type_ = xlib_sys.FocusOut then
    ((XFocusChangeEvent.new event.focus_change).map XEventData.FocusOut, 0)
  else if event.type_ = xlib_sys.KeymapNotify then
    (some (XEventData.KeymapChange (XKeymapEvent.new event.keymap)), 0)
  else if event.type_ = xlib_sys.KeyPress then
    (some (XEventData.KeyPress (XKeyEvent.new event.key)), 0)
  else if event.type_ = xlib_sys.KeyRelease then
    (some (XEventData.KeyRelease (XKeyEvent.new event.key)), 0)
  else if event.type_ = xlib_sys.PropertyNotify then
    ((XPropertyEvent.new event.property).map XEventData.PropertyChange, 0)
  else if event.type_ = xlib_sys.ResizeRequest then
    (some (XEventData.ResizeRequest (XResizeRequestEvent.new event.resize_request)), 0)
  else if event.type_ = xlib_sys.CirculateNotify then
    ((XCirculateEvent.new event.circulate).map XEventData.Circulate, 0)
  else if event.type_ = xlib_sys.ConfigureNotify then
    (some (XEventData.Configure (XConfigureEvent.new event.configure)), 0)
  else if event.type_ = xlib_sys.DestroyNotify then
    (some (XEventData.Destroy (XDestroyWindowEvent.new event.destroy_window)), 0)
  else if event.type_ = xlib_sys.GravityNotify then
    (some (XEventData.Gravity (XGravityEvent.new event.gravity)), 0)
  else if event.type_ = xlib_sys.MapNotify then
    (some (XEventData.Map (XMapEvent.new event.map)), 0)
  else if event.type_ = xlib_sys.ReparentNotify then
    (some (XEventData.Reparent (XReparentEvent.new event.reparent)), 0)
  else if event.type_ = xlib_sys.UnmapNotify then
    (some (XEventData.Unmap (XUnmapEvent.new event.unmap)), 0)
  else if event.type_ = xlib_sys.CirculateRequest then
    ((XCirculateRequestEvent.new event.circulate_request).map XEventData.CirculateRequest, 0)
  else if event.type_ = xlib_sys.ConfigureRequest then
    ((XConfigureRequestEvent.new event.configure_request).map XEventData.ConfigureRequest, 0)
  else if event.type_ = xlib_sys.MapRequest then
    (some (XEventData.MapRequest (XMapRequestEvent.new event.map_request)), 0)
  else if event.type_ = xlib_sys.ClientMessage then
    ((XClientMessageEvent.new event.client_message).map XEventData.ClientMessage, 0)
  else if event.type_ = xlib_sys.MappingNotify then
    ((XMappingEvent.new event.mapping).map XEventData.Mapping, 0)
  else if event.type_ = xlib_sys.SelectionClear then
    (some (XEventData.SelectionClear (XSelectionClearEvent.new event.selection_clear)), 0)
  else if event.type_ = xlib_sys.SelectionNotify then
    (some (XEventData.Selection (XSelectionEvent.new event.selection)), 0)
  else if event.type_ = xlib_sys.SelectionRequest then
    (some (XEventData.SelectionRequest
      (XSelectionRequestEvent.new event.selection_request)), 0)
  else if event.type_ = xlib_sys.VisibilityNotify then
    ((XVisibilityEvent.new event.visibility).map XEventData.VisibilityChange, 0)
  else if event.type_ = xlib_sys.GenericEvent then
    XEventData.new_generic event display
  else if event.type_ = display.xfixes_event_base + xfixes_sys.XFixesCursorNotify then
    ((XDisplayCursorEvent.new event.xfixes_cursor_notify).map XEventData.CursorChanged, 0)
  else
    (some (XEventData.Unknown event), 0)

/-- `XEvent` (`event.rs:268`). -/
structure XEvent where
  serial : Nat
  send_event : Bool
  window : XWindow
  data : XEventData
deriving Repr, Inhabited

/-- `XEvent::new` (`event.rs:286`): reads serial / send-flag / context
window from the `xany` view (window wrapped Foreign), then decodes the
payload. -/
def XEvent.new (event : RawXEvent) (display : XDisplay) : Option XEvent × Nat :=
  match XEventData.new event display with
  | (none, n) => (none, n)
  | (some data, n) =>
    (some { serial := event.any.serial
            send_event := event.any.send_event ≠ 0
            window := XWindow.new event.any.window WindowHandleOwnership.Foreign
            data := data }, n)

/-! ## Reachable resource handles of a decoded event -/

/-- All window handles embedded in a decoded event payload (per variant, in
field order). -/
def XEventData.windows : XEventData → List XWindow
  | XEventData.Motion e => [e.root, e.subwindow]
  | XEventData.KeyPress e => [e.root, e.subwindow]
  | XEventData.KeyRelease e => [e.root, e.subwindow]
  | XEventData.ButtonPress e => [e.root, e.subwindow]
  | XEventData.ButtonRelease e => [e.root, e.subwindow]
  | XEventData.ColormapChange _ => []
  | XEventData.EnterWindow e => [e.root, e.subwindow]
  | XEventData.LeaveWindow e => [e.root, e.subwindow]
  | XEventData.Expose _ => []
  | XEventData.FocusIn _ => []
  | XEventData.FocusOut _ => []
  | XEventData.KeymapChange _ => []
  | XEventData.PropertyChange _ => []
  | XEventData.ResizeRequest _ => []
  | XEventData.Circulate e => [e.window]
  | XEventData.Configure e => e.window :: e.above.toList
  | XEventData.Destroy e => [e.window]
  | XEventData.Gravity e => [e.window]
  | XEventData.Map e => [e.window]
  | XEventData.Reparent e => [e.window, e.parent]
  | XEventData.Unmap e => [e.window]
  | XEventData.CirculateRequest e => [e.window]
  | XEventData.ConfigureRequest e => [e.window, e.above]
  | XEventData.MapRequest e => [e.window]
  | XEventData.ClientMessage _ => []
  | XEventData.Mapping _ => []
  | XEventData.SelectionClear _ => []
  | XEventData.Selection _ => []
  | XEventData.SelectionRequest e => [e.requestor]
  | XEventData.VisibilityChange _ => []
  | XEventData.CursorChanged _ => []
  | XEventData.XIDeviceChanged _ => []
  | XEventData.XIKeyPressed e => [e.root, e.event, e.child]
  | XEventData.XIKeyReleased e => [e.root, e.event, e.child]
  | XEventData.XIButtonPressed e => [e.root, e.event, e.child]
  | XEventData.XIButtonReleased e => [e.root, e.event, e.child]
  | XEventData.XITouchBegin e => [e.root, e.event, e.child]
  | XEventData.XITouchEnd e => [e.root, e.event, e.child]
  | XEventData.XITouchUpdate e => [e.root, e.event, e.child]
  | XEventData.XITouchOwnershipChanged e => [e.root, e.event, e.child]
  | XEventData.XIMotion e => [e.root, e.event, e.child]
  | XEventData.XIHierarchyChanged _ => []
  | XEventData.XIRawKeyPressed _ => []
  | XEventData.XIRawKeyReleased _ => []
  | XEventData.XIRawButtonPressed _ => []
  | XEventData.XIRawButtonReleased _ => []
  | XEventData.XIRawTouchBegin _ => []
  | XEventData.XIRawTouchEnd _ => []
  | XEventData.XIRawTouchUpdated _ => []
  | XEventData.XIRawMotion _ => []
  | XEventData.XIBarrierHit e => [e.event, e.root]
  | XEventData.XIBarrierLeft e => [e.event, e.root]
  | XEventData.XIEntered e => [e.root, e.event, e.child]
  | XEventData.XILeft e => [e.root, e.event, e.child]
  | XEventData.XIFocusIn e => [e.root, e.event, e.child]
  | XEventData.XIFocusOut e => [e.root, e.event, e.child]
  | XEventData.XIPropertyChanged _ => []
  | XEventData.Unknown _ => []

/-- All colormap handles embedded in a decoded event payload. -/
def XEventData.colormaps : XEventData → List XColormap
  | XEventData.ColormapChange e => [e.colormap]
  | _ => []

/-- Every resource handle reachable from a decoded payload is tagged
Foreign. -/
def handlesAllForeign (d : XEventData) : Prop :=
  (∀ w ∈ d.windows, w.ownership = WindowHandleOwnership.Foreign) ∧
  (∀ c ∈ d.colormaps, c.ownership = ColormapHandleOwnership.Foreign)

/-- The core event type tags matched by the outer dispatch of
`XEventData::new` (its static arms, in source order). -/
def knownCoreTags : List Int :=
  [xlib_sys.MotionNotify, xlib_sys.ButtonPress, xlib_sys.ButtonRelease,
   xlib_sys.ColormapNotify, xlib_sys.EnterNotify, xlib_sys.LeaveNotify,
   xlib_sys.Expose, xlib_sys.FocusIn, xlib_sys.FocusOut, xlib_sys.KeymapNotify,
   xlib_sys.KeyPress, xlib_sys.KeyRelease, xlib_sys.PropertyNotify,
   xlib_sys.ResizeRequest, xlib_sys.CirculateNotify, xlib_sys.ConfigureNotify,
   xlib_sys.DestroyNotify, xlib_sys.GravityNotify, xlib_sys.MapNotify,
   xlib_sys.ReparentNotify, xlib_sys.UnmapNotify, xlib_sys.CirculateRequest,
   xlib_sys.ConfigureRequest, xlib_sys.MapRequest, xlib_sys.ClientMessage,
   xlib_sys.MappingNotify, xlib_sys.SelectionClear, xlib_sys.SelectionNotify,
   xlib_sys.SelectionRequest, xlib_sys.VisibilityNotify, xlib_sys.GenericEvent]

/-- The xinput2 sub-type codes matched by `XEventData::new_xinput2`. -/
def knownXIEvtypes : List Int :=
  [xinput2_sys.XI_DeviceChanged, xinput2_sys.XI_KeyPress, xinput2_sys.XI_KeyRelease,
   xinput2_sys.XI_ButtonPress, xinput2_sys.XI_ButtonRelease, xinput2_sys.XI_TouchBegin,
   xinput2_sys.XI_TouchEnd, xinput2_sys.XI_TouchUpdate, xinput2_sys.XI_TouchOwnership,
   xinput2_sys.XI_Motion, xinput2_sys.XI_HierarchyChanged, xinput2_sys.XI_RawKeyPress,
   xinput2_sys.XI_RawKeyRelease, xinput2_sys.XI_RawButtonPress,
   xinput2_sys.XI_RawButtonRelease, xinput2_sys.XI_RawTouchBegin,
   xinput2_sys.XI_RawTouchEnd, xinput2_sys.XI_RawTouchUpdate, xinput2_sys.XI_RawMotion,
   xinput2_sys.XI_BarrierHit, xinput2_sys.XI_BarrierLeave, xinput2_sys.XI_Enter,
   xinput2_sys.XI_Leave, xinput2_sys.XI_FocusIn, xinput2_sys.XI_FocusOut,
   xinput2_sys.XI_PropertyEvent]

/-! ## Concrete fixtures used by the witness theorems -/

/-- A display with xfixes event base 100 and xinput2 opcode 131. -/
def dispFix : XDisplay := { xfixes_event_base := 100, xinput2_opcode := 131 }

/-- A device event whose valuator mask has bits {1,3,4} set (byte `0b00011010`)
and whose value array is `[10.0, 20.0, 30.0]` (as opaque payloads). -/
def devFix : RawXIDeviceEvent :=
  { (default : RawXIDeviceEvent) with
      valuators_mask := [26]
      valuators_values := [⟨10⟩, ⟨20⟩, ⟨30⟩] }

/-- A raw event with the same mask and two value arrays. -/
def rawFix : RawXIRawEvent :=
  { (default : RawXIRawEvent) with
      valuators_mask := [26]
      valuators_values := [⟨10⟩, ⟨20⟩, ⟨30⟩]
      raw_values := [⟨40⟩, ⟨50⟩, ⟨60⟩] }

/-- A property holder whose probe read reports 8 remaining bytes and whose
sized read returns different data with nothing remaining. -/
def holderFix : PropHolder :=
  { get_property := fun _ length _ =>
      if length = 0 then
        some ({ format := XPropertyDataFormat.Bit8, actual_type := XAtom.new 4
                item_count := 0, data := [] }, 8)
      else
        some ({ format := XPropertyDataFormat.Bit8, actual_type := XAtom.new 4
                item_count := 8, data := [1, 2, 3, 4, 5, 6, 7, 8] }, 0) }

/-- A property holder whose probe read reports zero remaining bytes. -/
def holderFixEmpty : PropHolder :=
  { get_property := fun _ _ _ =>
      some ({ format := XPropertyDataFormat.Bit32, actual_type := XAtom.new 4
              item_count := 0, data := [] }, 0) }

/-- A server property reply with a valid format (32). -/
def replyFixGood : GetPropertyReply :=
  { actual_type := 4, actual_format := 32, item_count := 2, remaining_bytes := 5
    data := [1, 2, 3, 4, 5, 6, 7, 8] }

/-- A server property reply with an invalid format (13). -/
def replyFixBad : GetPropertyReply :=
  { actual_type := 4, actual_format := 13, item_count := 2, remaining_bytes := 5
    data := [1, 2] }

/-- An atom server that knows the name `[65]` as atom 7 and allocates atom 9
for everything else when creation is requested. -/
def atomServerFix : AtomServer :=
  { intern := fun name only_if_exists =>
      if name = [65] then 7 else if only_if_exists then 0 else 9 }

/-- A raw destroy event for window id `0x1234`. -/
def destroyEvFix : RawXEvent :=
  { (default : RawXEvent) with
      type_ := xlib_sys.DestroyNotify
      destroy_window := { window := 0x1234 } }

/-- A raw event with the unhandled core tag 16 (`CreateNotify`). -/
def unknownTagEvFix : RawXEvent :=
  { (default : RawXEvent) with type_ := 16 }

/-- A generic-event envelope whose carried extension opcode (5) differs from
`dispFix`'s cached xinput2 opcode (131). -/
def genericMismatchEvFix : RawXEvent :=
  { (default : RawXEvent) with
      type_ := xlib_sys.GenericEvent
      generic_event_cookie :=
        { extension := 5, evtype := xinput2_sys.XI_Motion, data := XICookieData.blob } }

/-- A generic-event envelope with matching opcode but unrecognized sub-type
code 99. -/
def genericUnknownSubEvFix : RawXEvent :=
  { (default : RawXEvent) with
      type_ := xlib_sys.GenericEvent
      generic_event_cookie :=
        { extension := 131, evtype := 99, data := XICookieData.blob } }

/-- A generic-event envelope with matching opcode and a motion sub-type
carrying an (empty-mask) device payload. -/
def genericMotionEvFix : RawXEvent :=
  { (default : RawXEvent) with
      type_ := xlib_sys.GenericEvent
      generic_event_cookie :=
        { extension := 131, evtype := xinput2_sys.XI_Motion
          data := XICookieData.device default } }

/-- A `VisibilityNotify` event whose state 5 is outside the three visibility
constants. -/
def badVisibilityEvFix : RawXEvent :=
  { (default : RawXEvent) with
      type_ := xlib_sys.VisibilityNotify
      visibility := { state := 5 } }

/-- An `EnterNotify` event whose crossing detail 42 is outside the eight
notify-detail constants. -/
def badCrossingEvFix : RawXEvent :=
  { (default : RawXEvent) with
      type_ := xlib_sys.EnterNotify
      crossing := { (default : RawCrossingEvent) with detail := 42 } }

/-! # Theorems -/

/-! ## Mask/value pairing lemmas (claim C5) -/

/-- The consuming loop yields exactly one value per set bit, in bit order:
it returns the prefix of the value array of length "number of set bits among
the walked indices", provided the array is long enough. -/
theorem collectValuatorValues_spec (mask : List Nat) (bits : List Nat) (vals : List F64)
    (h : (bits.filter fun i => xinput2_sys.XIMaskIsSet mask i).length ≤ vals.length) :
    collectValuatorValues mask bits vals =
      some (vals.take (bits.filter fun i => xinput2_sys.XIMaskIsSet mask i).length) := by
  induction bits generalizing vals with
  | nil => simp [collectValuatorValues]
  | cons i rest ih =>
    by_cases hset : xinput2_sys.XIMaskIsSet mask i = true
    · cases vals with
      | nil =>
        rw [List.filter_cons_of_pos hset] at h
        simp at h
      | cons v vs =>
        rw [List.filter_cons_of_pos hset] at h ⊢
        simp only [List.length_cons, Nat.succ_le_succ_iff] at h
        simp only [collectValuatorValues, hset, if_true]
        rw [ih vs h]
        simp [List.take_cons]
    · rw [List.filter_cons_of_neg (by simpa using hset)] at h ⊢
      simp only [collectValuatorValues, hset, if_false]
      exact ih vals h

/-- The lockstep loop of `XIRawEvent::new` consumes both arrays at the same
positions: both outputs are prefixes of the same length. -/
theorem collectValuatorValues2_spec (mask : List Nat) (bits : List Nat)
    (vals raws : List F64)
    (h1 : (bits.filter fun i => xinput2_sys.XIMaskIsSet mask i).length ≤ vals.length)
    (h2 : (bits.filter fun i => xinput2_sys.XIMaskIsSet mask i).length ≤ raws.length) :
    collectValuatorValues2 mask bits vals raws =
      some (vals.take (bits.filter fun i => xinput2_sys.XIMaskIsSet mask i).length,
            raws.take (bits.filter fun i => xinput2_sys.XIMaskIsSet mask i).length) := by
  induction bits generalizing vals raws with
  | nil => simp [collectValuatorValues2]
  | cons i rest ih =>
    by_cases hset : xinput2_sys.XIMaskIsSet mask i = true
    · cases vals with
      | nil =>
        rw [List.filter_cons_of_pos hset] at h1
        simp at h1
      | cons v vs =>
        cases raws with
        | nil =>
          rw [List.filter_cons_of_pos hset] at h2
          simp at h2
        | cons r rs =>
          rw [List.filter_cons_of_pos hset] at h1 h2 ⊢
          simp only [List.length_cons, Nat.succ_le_succ_iff] at h1 h2
          simp only [collectValuatorValues2, hset, if_true]
          rw [ih vs rs h1 h2]
          simp [List.take_cons]
    · rw [List.filter_cons_of_neg (by simpa using hset)] at h1 h2 ⊢
      simp only [collectValuatorValues2, hset, if_false]
      exact ih vals raws h1 h2

/-- Zipping a list with a prefix of another list of its own length is the
same as zipping with the whole list. -/
theorem zip_take_length {α β : Type} (l : List α) (l2 : List β) :
    l.zip (l2.take l.length) = l.zip l2 := by
  induction l generalizing l2 with
  | nil => simp
  | cons a rest ih =>
    cases l2 with
    | nil => simp
    | cons b bs => simp [ih]

/-- C5: decoding a device event or a raw event walks the mask bits in
ascending order and, for each set bit, consumes the next entry of the value
array — so the decoded valuator values are the prefix of the array of length
"number of set bits", paired positionally with `maskSetBits`; raw-event
decoding consumes the raw-value array in lockstep under the identical mask. -/
theorem xi_mask_value_pairing (dev : RawXIDeviceEvent) (raw : RawXIRawEvent)
    (hdev : (maskSetBits dev.valuators_mask).length ≤ dev.valuators_values.length)
    (hraw1 : (maskSetBits raw.valuators_mask).length ≤ raw.valuators_values.length)
    (hraw2 : (maskSetBits raw.valuators_mask).length ≤ raw.raw_values.length) :
    (∃ d, XIDeviceEvent.new dev = some d ∧
       d.valuators.mask = dev.valuators_mask ∧
       d.valuators.values =
         dev.valuators_values.take (maskSetBits dev.valuators_mask).length ∧
       (maskSetBits dev.valuators_mask).zip d.valuators.values =
         (maskSetBits dev.valuators_mask).zip dev.valuators_values) ∧
    (∃ r, XIRawEvent.new raw = some r ∧
       r.valuators.mask = raw.valuators_mask ∧
       r.valuators.values =
         raw.valuators_values.take (maskSetBits raw.valuators_mask).length ∧
       r.raw_values = raw.raw_values.take (maskSetBits raw.valuators_mask).length) := by
  constructor
  · unfold XIDeviceEvent.new
    rw [collectValuatorValues_spec dev.valuators_mask _ dev.valuators_values
      (by simpa [maskSetBits] using hdev)]
    refine ⟨_, rfl, rfl, ?_, ?_⟩
    · simp [XIValuatorState.new, maskSetBits]
    · simp only [XIValuatorState.new, maskSetBits]
      exact zip_take_length _ _
  · unfold XIRawEvent.new
    rw [collectValuatorValues2_spec raw.valuators_mask _ raw.valuators_values raw.raw_values
      (by simpa [maskSetBits] using hraw1) (by simpa [maskSetBits] using hraw2)]
    exact ⟨_, rfl, rfl, by simp [XIValuatorState.new, maskSetBits], by simp [maskSetBits]⟩

/-! ## Claim C5 witness -/

/-- C5 witness: the mask byte `0b00011010` (= 26) with value array
`[10.0, 20.0, 30.0]` decodes to the pairing {1 → 10.0, 3 → 20.0, 4 → 30.0}. -/
theorem xi_mask_value_pairing_witness :
    ((maskSetBits devFix.valuators_mask).length ≤ devFix.valuators_values.length ∧
     (maskSetBits rawFix.valuators_mask).length ≤ rawFix.valuators_values.length ∧
     (maskSetBits rawFix.valuators_mask).length ≤ rawFix.raw_values.length) ∧
    ((∃ d, XIDeviceEvent.new devFix = some d ∧
        d.valuators.mask = devFix.valuators_mask ∧
        d.valuators.values =
          devFix.valuators_values.take (maskSetBits devFix.valuators_mask).length ∧
        (maskSetBits devFix.valuators_mask).zip d.valuators.values =
          (maskSetBits devFix.valuators_mask).zip devFix.valuators_values) ∧
     (∃ r, XIRawEvent.new rawFix = some r ∧
        r.valuators.mask = rawFix.valuators_mask ∧
        r.valuators.values =
          rawFix.valuators_values.take (maskSetBits rawFix.valuators_mask).length ∧
        r.raw_values = rawFix.raw_values.take (maskSetBits rawFix.valuators_mask).length)) ∧
    maskSetBits devFix.valuators_mask = [1, 3, 4] ∧
    ((XIDeviceEvent.new devFix).map fun d =>
        (maskSetBits devFix.valuators_mask).zip d.valuators.values) =
      some [(1, ⟨10⟩), (3, ⟨20⟩), (4, ⟨30⟩)] :=
  ⟨⟨by decide, by decide, by decide⟩,
   xi_mask_value_pairing devFix rawFix (by decide) (by decide) (by decide),
   by decide, by decide⟩

/-! ## Claim C6: two-phase complete property read -/

/-- C6: `get_property_completely` first issues a probe with offset 0,
length 0, delete=false; when the probe reports zero remaining bytes it
returns the probe data after exactly that one call; otherwise it issues
exactly one more call with length `remaining / 4` and the caller's delete
flag, and returns that second result. -/
theorem get_property_completely_two_phase (h : PropHolder) (delete : Bool) :
    (∀ data, h.get_property 0 0 false = some (data, 0) →
       h.get_property_completely delete =
         (some data, [{ offset := 0, length := 0, delete := false }])) ∧
    (∀ data remaining, h.get_property 0 0 false = some (data, remaining) →
       1 ≤ remaining →
       h.get_property_completely delete =
         ((h.get_property 0 ((remaining / 4 : Nat) : Int) delete).map Prod.fst,
          [{ offset := 0, length := 0, delete := false },
           { offset := 0, length := ((remaining / 4 : Nat) : Int), delete := delete }])) := by
  constructor
  · intro data hprobe
    unfold PropHolder.get_property_completely
    rw [hprobe]
    norm_num
  · intro data remaining hprobe hr
    unfold PropHolder.get_property_completely
    rw [hprobe]
    dsimp only
    rw [if_neg (by omega : ¬remaining < 1)]
    cases h2 : h.get_property 0 ((remaining / 4 : Nat) : Int) delete with
    | none => simp [h2]
    | some p => simp [h2]

/-- C6 witness: a holder reporting 8 remaining bytes on the probe gets a
second call of length 2 with the caller's delete flag; a holder reporting 0
remaining short-circuits after one call. -/
theorem get_property_completely_two_phase_witness :
    holderFix.get_property_completely true =
      ((holderFix.get_property 0 (((8 : Nat) / 4 : Nat) : Int) true).map Prod.fst,
       [{ offset := 0, length := 0, delete := false },
        { offset := 0, length := (((8 : Nat) / 4 : Nat) : Int), delete := true }]) ∧
    holderFixEmpty.get_property_completely true =
      (some { format := XPropertyDataFormat.Bit32, actual_type := XAtom.new 4
              item_count := 0, data := [] },
       [{ offset := 0, length := 0, delete := false }]) :=
  ⟨(get_property_completely_two_phase holderFix true).2
      ({ format := XPropertyDataFormat.Bit8, actual_type := XAtom.new 4
         item_count := 0, data := [] }) 8 rfl (by norm_num),
   (get_property_completely_two_phase holderFixEmpty true).1
      ({ format := XPropertyDataFormat.Bit32, actual_type := XAtom.new 4
         item_count := 0, data := [] }) rfl⟩

/-! ## Claim C7: property format gate -/

/-- C7: `get_property` (window and input-device variants) returns `none`
exactly when the server-reported format is outside {8, 16, 32}; on a valid
format it returns the wrapped data paired with the remaining byte count. -/
theorem get_property_format_gate (reply : GetPropertyReply) :
    (XWindow.get_property reply = none ↔
       ¬(reply.actual_format = 8 ∨ reply.actual_format = 16 ∨ reply.actual_format = 32)) ∧
    (XInputDevice.get_property reply = none ↔
       ¬(reply.actual_format = 8 ∨ reply.actual_format = 16 ∨ reply.actual_format = 32)) ∧
    (∀ p, XWindow.get_property reply = some p →
       p.2 = reply.remaining_bytes ∧ p.1.data = reply.data) ∧
    (∀ p, XInputDevice.get_property reply = some p →
       p.2 = reply.remaining_bytes ∧ p.1.data = reply.data) := by
  unfold XWindow.get_property XInputDevice.get_property XPropertyDataFormat.from_native
  split <;> simp_all

/-- C7 witness: format 32 yields the data with the remaining count; format
13 yields `none`. -/
theorem get_property_format_gate_witness :
    (XWindow.get_property replyFixBad = none ↔
       ¬(replyFixBad.actual_format = 8 ∨ replyFixBad.actual_format = 16 ∨
         replyFixBad.actual_format = 32)) ∧
    XWindow.get_property replyFixBad = none ∧
    (∀ p, XWindow.get_property replyFixGood = some p →
       p.2 = replyFixGood.remaining_bytes ∧ p.1.data = replyFixGood.data) ∧
    (XWindow.get_property replyFixGood).isSome = true :=
  ⟨(get_property_format_gate replyFixBad).1,
   (get_property_format_gate replyFixBad).1.mpr (by decide),
   (get_property_format_gate replyFixGood).2.2.1,
   by decide⟩

/-! ## Claim C8: atom interning -/

/-- C8: `get_atom` (do-not-create mode) returns no atom exactly when the
server reports id 0 for the name, `get_or_create_atom` always produces an
atom, and both panic on a name containing an embedded nul byte. -/
theorem atom_intern_contract (server : AtomServer) (name : List Nat) :
    (0 ∈ name →
       XDisplay.get_atom server name = none ∧
       XDisplay.get_or_create_atom server name = none) ∧
    (0 ∉ name →
       (XDisplay.get_atom server name = some none ↔ server.intern name true = 0) ∧
       (∃ a, XDisplay.get_or_create_atom server name = some a)) := by
  constructor
  · intro hnul
    unfold XDisplay.get_atom XDisplay.get_or_create_atom CString.new
    rw [if_pos hnul]
    exact ⟨rfl, rfl⟩
  · intro hnul
    unfold XDisplay.get_atom XDisplay.get_or_create_atom CString.new
    rw [if_neg hnul]
    constructor
    · by_cases hz : server.intern name true = 0
      · simp [hz]
      · simp [hz]
    · exact ⟨_, rfl⟩

/-- C8 witness: a name with an embedded nul makes both forms panic; a known
plain name resolves, an unknown plain name yields `none` only in
do-not-create mode. -/
theorem atom_intern_contract_witness :
    (XDisplay.get_atom atomServerFix [65, 0, 66] = none ∧
     XDisplay.get_or_create_atom atomServerFix [65, 0, 66] = none) ∧
    ((XDisplay.get_atom atomServerFix [66] = some none ↔
        atomServerFix.intern [66] true = 0) ∧
     (∃ a, XDisplay.get_or_create_atom atomServerFix [66] = some a)) ∧
    XDisplay.get_atom atomServerFix [66] = some none ∧
    XDisplay.get_atom atomServerFix [65] = some (some (XAtom.new 7)) :=
  ⟨(atom_intern_contract atomServerFix [65, 0, 66]).1 (by decide),
   (atom_intern_contract atomServerFix [66]).2 (by decide),
   ((atom_intern_contract atomServerFix [66]).2 (by decide)).1.mpr (by decide),
   by decide⟩

/-! ## Claim C9: release on destruction iff owned -/

/-- C9: dropping a window handle performs no connection call exactly when
the ownership tag is Foreign; an Owned handle invokes the destroy-window
primitive and an OwnedCompositeOverlay handle invokes the composite-overlay
release primitive, each on the handle's raw id. -/
theorem drop_release_iff_owned (w : XWindow) :
    (w.dropAction = DropAction.none ↔ w.ownership = WindowHandleOwnership.Foreign) ∧
    (w.ownership = WindowHandleOwnership.Owned →
       w.dropAction = DropAction.destroyWindow w.handle) ∧
    (w.ownership = WindowHandleOwnership.OwnedCompositeOverlay →
       w.dropAction = DropAction.releaseCompositeOverlay w.handle) := by
  obtain ⟨handle, ownership⟩ := w
  cases ownership <;> simp [XWindow.dropAction]

/-- C9 witness: the three ownership tags on window id 77. -/
theorem drop_release_iff_owned_witness :
    XWindow.dropAction ⟨77, WindowHandleOwnership.Foreign⟩ = DropAction.none ∧
    XWindow.dropAction ⟨77, WindowHandleOwnership.Owned⟩ = DropAction.destroyWindow 77 ∧
    XWindow.dropAction ⟨77, WindowHandleOwnership.OwnedCompositeOverlay⟩ =
      DropAction.releaseCompositeOverlay 77 :=
  ⟨(drop_release_iff_owned ⟨77, WindowHandleOwnership.Foreign⟩).1.mpr rfl,
   (drop_release_iff_owned ⟨77, WindowHandleOwnership.Owned⟩).2.1 rfl,
   (drop_release_iff_owned ⟨77, WindowHandleOwnership.OwnedCompositeOverlay⟩).2.2 rfl⟩

/-! ## Claim C1: totality on unknown type tags -/

/-- C1: for every raw event whose type tag is outside the known set of core
event types and also differs from the cached xfixes event base plus the
cursor-notify subcode, `XEventData::new` returns the `Unknown` variant
carrying the raw event and never panics (and issues no free call). -/
theorem decode_unknown_tag_total (event : RawXEvent) (display : XDisplay)
    (h1 : event.type_ ∉ knownCoreTags)
    (h2 : event.type_ ≠ display.xfixes_event_base + xfixes_sys.XFixesCursorNotify) :
    XEventData.new event display = (some (XEventData.Unknown event), 0) := by
  simp [knownCoreTags, not_or] at h1
  simp only [xfixes_sys.XFixesCursorNotify] at h2
  simp [XEventData.new, h1, h2]

/-- C1 witness: the unhandled core tag 16 (`CreateNotify`) decodes to
`Unknown` on a display with xfixes event base 100. -/
theorem decode_unknown_tag_total_witness :
    unknownTagEvFix.type_ ∉ knownCoreTags ∧
    unknownTagEvFix.type_ ≠ dispFix.xfixes_event_base + xfixes_sys.XFixesCursorNotify ∧
    XEventData.new unknownTagEvFix dispFix =
      (some (XEventData.Unknown unknownTagEvFix), 0) :=
  ⟨by decide, by decide,
   decode_unknown_tag_total unknownTagEvFix dispFix (by decide) (by decide)⟩

/-! ## Claim C4: generic-event dispatch gating -/

/-- C4: on the generic-event pseudo-type, decode yields `Unknown` whenever
the carried extension opcode differs from the cached xinput2 opcode, and
also when the opcode matches but the extension sub-type code is not one of
the known cases. -/
theorem generic_dispatch_gating (e : RawXEvent) (d : XDisplay) :
    (e.generic_event_cookie.extension ≠ d.xinput2_opcode →
       (XEventData.new_generic e d).1 = some (XEventData.Unknown e)) ∧
    (e.generic_event_cookie.extension = d.xinput2_opcode →
       e.generic_event_cookie.evtype ∉ knownXIEvtypes →
       (XEventData.new_generic e d).1 = some (XEventData.Unknown e)) := by
  constructor
  · intro hne
    simp [XEventData.new_generic, hne]
  · intro heq hev
    simp [knownXIEvtypes, not_or] at hev
    have hred : XEventData.new_generic e d = XEventData.new_xinput2 e := by
      simp [XEventData.new_generic, heq]
    rw [hred]
    unfold XEventData.new_xinput2
    dsimp only
    split <;> first | rfl | omega

/-- C4 witness: a mismatched opcode (5 vs 131) and a matched opcode with
unknown sub-type 99 both decode to `Unknown`. -/
theorem generic_dispatch_gating_witness :
    (XEventData.new_generic genericMismatchEvFix dispFix).1 =
      some (XEventData.Unknown genericMismatchEvFix) ∧
    (XEventData.new_generic genericUnknownSubEvFix dispFix).1 =
      some (XEventData.Unknown genericUnknownSubEvFix) :=
  ⟨(generic_dispatch_gating genericMismatchEvFix dispFix).1 (by decide),
   (generic_dispatch_gating genericUnknownSubEvFix dispFix).2 (by decide) (by decide)⟩

/-! ## Claim C3 (corrected): free_event_data discipline -/

set_option maxHeartbeats 1600000 in
/-- The xinput2 sub-decode yields either a panic with zero frees or a value
with exactly one free. -/
theorem new_xinput2_shape (e : RawXEvent) :
    XEventData.new_xinput2 e = (none, 0) ∨
    ∃ r, XEventData.new_xinput2 e = (some r, 1) := by
  unfold XEventData.new_xinput2
  dsimp only
  split <;> (try split) <;>
    first
    | exact Or.inl rfl
    | exact Or.inr ⟨_, rfl⟩

theorem new_xinput2_free_count (e : RawXEvent) :
    (∀ r, (XEventData.new_xinput2 e).1 = some r → (XEventData.new_xinput2 e).2 = 1) ∧
    ((XEventData.new_xinput2 e).1 = none → (XEventData.new_xinput2 e).2 = 0) := by
  rcases new_xinput2_shape e with h | ⟨r, h⟩ <;> rw [h] <;> simp

/-- C3 counterexample: a generic-event envelope whose extension opcode (5)
differs from the cached xinput2 opcode (131) decodes with zero
`XFreeEventData` calls, not one as the claim requires. -/
theorem generic_free_event_data_counterexample :
    genericMismatchEvFix.type_ = xlib_sys.GenericEvent ∧
    genericMismatchEvFix.generic_event_cookie.extension ≠ dispFix.xinput2_opcode ∧
    (XEventData.new genericMismatchEvFix dispFix).2 = 0 ∧
    ¬(XEventData.new genericMismatchEvFix dispFix).2 = 1 := by
  refine ⟨rfl, by decide, rfl, by decide⟩

/-- C3 amended: on the matching-opcode path, `XFreeEventData` is invoked
exactly once whenever the sub-decode completes (each recognized sub-type
whose payload conversion succeeds, and unrecognized sub-types), and zero
times when a payload conversion panics; on the non-matching-opcode path the
decode returns `Unknown` without invoking `XGetEventData` or
`XFreeEventData` at all. -/
theorem generic_free_event_data_discipline (e : RawXEvent) (d : XDisplay) :
    (e.generic_event_cookie.extension = d.xinput2_opcode →
       (∀ r, (XEventData.new_generic e d).1 = some r →
          (XEventData.new_generic e d).2 = 1) ∧
       ((XEventData.new_generic e d).1 = none → (XEventData.new_generic e d).2 = 0)) ∧
    (e.generic_event_cookie.extension ≠ d.xinput2_opcode →
       XEventData.new_generic e d = (some (XEventData.Unknown e), 0)) := by
  constructor
  · intro heq
    have hred : XEventData.new_generic e d = XEventData.new_xinput2 e := by
      simp [XEventData.new_generic, heq]
    rw [hred]
    exact new_xinput2_free_count e
  · intro hne
    simp [XEventData.new_generic, hne]

/-- C3 witness: an unrecognized sub-type on the matching path frees exactly
once; a recognized motion sub-type frees exactly once; the mismatching path
yields `Unknown` with zero frees. -/
theorem generic_free_event_data_discipline_witness :
    (XEventData.new_generic genericUnknownSubEvFix dispFix).2 = 1 ∧
    (XEventData.new_generic genericMotionEvFix dispFix).2 = 1 ∧
    XEventData.new_generic genericMismatchEvFix dispFix =
      (some (XEventData.Unknown genericMismatchEvFix), 0) :=
  ⟨((generic_free_event_data_discipline genericUnknownSubEvFix dispFix).1 rfl).1
      (XEventData.Unknown genericUnknownSubEvFix) rfl,
   ((generic_free_event_data_discipline genericMotionEvFix dispFix).1 rfl).1
      _ rfl,
   (generic_free_event_data_discipline genericMismatchEvFix dispFix).2 (by decide)⟩

/-! ## Claim C10: panics on invalid enumerated sub-fields -/

/-- C10: decode is not total over recognized tags — a `VisibilityNotify`
event whose state is outside the three visibility constants, or an
`EnterNotify` event whose detail is outside the eight notify-detail
constants, reaches `unreachable!` in the sub-field wrapper and decode
panics. -/
theorem decode_panics_on_invalid_subfield (e : RawXEvent) (d : XDisplay) :
    (e.type_ = xlib_sys.VisibilityNotify →
       e.visibility.state ∉ [xlib_sys.VisibilityUnobscured,
         xlib_sys.VisibilityPartiallyObscured, xlib_sys.VisibilityFullyObscured] →
       XEventData.new e d = (none, 0)) ∧
    (e.type_ = xlib_sys.EnterNotify →
       e.crossing.detail ∉ [xlib_sys.NotifyAncestor, xlib_sys.NotifyVirtual,
         xlib_sys.NotifyInferior, xlib_sys.NotifyNonlinear,
         xlib_sys.NotifyNonlinearVirtual, xlib_sys.NotifyPointer,
         xlib_sys.NotifyPointerRoot, xlib_sys.NotifyDetailNone] →
       XEventData.new e d = (none, 0)) := by
  constructor
  · intro ht hs
    simp [not_or] at hs
    simp [XEventData.new, ht, XVisibilityEvent.new, VisibilityState.new, hs]
  · intro ht hs
    simp [not_or] at hs
    simp [XEventData.new, ht, XCrossingEvent.new, NotifyDetail.new, hs]

/-- C10 witness: visibility state 5 and crossing detail 42 both make decode
panic. -/
theorem decode_panics_on_invalid_subfield_witness :
    XEventData.new badVisibilityEvFix dispFix = (none, 0) ∧
    XEventData.new badCrossingEvFix dispFix = (none, 0) :=
  ⟨(decode_panics_on_invalid_subfield badVisibilityEvFix dispFix).1 rfl (by decide),
   (decode_panics_on_invalid_subfield badCrossingEvFix dispFix).2 rfl (by decide)⟩

/-! ## Claim C2: ownership uniformity of decoded handles -/

set_option maxHeartbeats 3200000 in
/-- Every handle reachable from a value produced by the xinput2 sub-decode
is tagged Foreign. -/
theorem new_xinput2_handles_foreign (e : RawXEvent) (d : XEventData) (n : Nat)
    (h : XEventData.new_xinput2 e = (some d, n)) : handlesAllForeign d := by
  unfold XEventData.new_xinput2 at h
  dsimp only at h
  split at h <;> (try split at h) <;>
    first
    | exact Option.noConfusion (congrArg Prod.fst h)
    | (injection h with h1 h2
       injection h1 with h1
       subst h1
       first
       | (simp [handlesAllForeign, XEventData.windows, XEventData.colormaps,
                XITouchOwnershipEvent.new, XIBarrierEvent.new, XWindow.new]
          done)
       | (rename_i conv hconv
          simp only [XIDeviceEvent.new, XIFocusEvent.new, Option.map_eq_some',
                     Option.bind_eq_some] at hconv
          (first
            | obtain ⟨a, -, rfl⟩ := hconv
            | obtain ⟨a, -, b, -, rfl⟩ := hconv)
          simp [handlesAllForeign, XEventData.windows, XEventData.colormaps, XWindow.new]))

set_option maxHeartbeats 6400000 in
/-- C2: for every raw event, every resource handle (window or colormap)
reachable from the decoded variant carries ownership tag Foreign. -/
theorem decoded_handles_foreign (event : RawXEvent) (display : XDisplay)
    (d : XEventData) (n : Nat)
    (h : XEventData.new event display = (some d, n)) :
    handlesAllForeign d := by
  unfold XEventData.new XEventData.new_generic at h
  by_cases c1 : event.type_ = xlib_sys.MotionNotify
  · rw [if_pos c1] at h
    injection h with h1 h2
    injection h1 with h1
    subst h1
    simp [handlesAllForeign, XEventData.windows, XEventData.colormaps,
          XMotionEvent.new, XButtonEvent.new, XKeyEvent.new, XDestroyWindowEvent.new,
          XGravityEvent.new, XMapEvent.new, XReparentEvent.new, XUnmapEvent.new,
          XMapRequestEvent.new, XSelectionRequestEvent.new, XSelectionEvent.new,
          XWindow.new]
  rw [if_neg c1] at h
  by_cases c2 : event.type_ = xlib_sys.ButtonPress
  · rw [if_pos c2] at h
    injection h with h1 h2
    injection h1 with h1
    subst h1
    simp [handlesAllForeign, XEventData.windows, XEventData.colormaps,
          XMotionEvent.new, XButtonEvent.new, XKeyEvent.new, XDestroyWindowEvent.new,
          XGravityEvent.new, XMapEvent.new, XReparentEvent.new, XUnmapEvent.new,
          XMapRequestEvent.new, XSelectionRequestEvent.new, XSelectionEvent.new,
          XWindow.new]
  rw [if_neg c2] at h
  by_cases c3 : event.type_ = xlib_sys.ButtonRelease
  · rw [if_pos c3] at h
    injection h with h1 h2
    injection h1 with h1
    subst h1
    simp [handlesAllForeign, XEventData.windows, XEventData.colormaps,
          XMotionEvent.new, XButtonEvent.new, XKeyEvent.new, XDestroyWindowEvent.new,
          XGravityEvent.new, XMapEvent.new, XReparentEvent.new, XUnmapEvent.new,
          XMapRequestEvent.new, XSelectionRequestEvent.new, XSelectionEvent.new,
          XWindow.new]
  rw [if_neg c3] at h
  by_cases c4 : event.type_ = xlib_sys.ColormapNotify
  · rw [if_pos c4] at h
    injection h with h1 h2
    rw [Option.map_eq_some'] at h1
    obtain ⟨a, ha, h3⟩ := h1
    subst h3
    simp only [XColormapEvent.new, Option.map_eq_some'] at ha
    obtain ⟨b, -, rfl⟩ := ha
    simp [handlesAllForeign, XEventData.windows, XEventData.colormaps,
          XWindow.new, XColormap.new]
  rw [if_neg c4] at h
  by_cases c5 : event.type_ = xlib_sys.EnterNotify
  · rw [if_pos c5] at h
    injection h with h1 h2
    rw [Option.map_eq_some'] at h1
    obtain ⟨a, ha, h3⟩ := h1
    subst h3
    simp only [XCrossingEvent.new, Option.map_eq_some'] at ha
    obtain ⟨b, -, rfl⟩ := ha
    simp [handlesAllForeign, XEventData.windows, XEventData.colormaps,
          XWindow.new, XColormap.new]
  rw [if_neg c5] at h
  by_cases c6 : event.type_ = xlib_sys.LeaveNotify
  · rw [if_pos c6] at h
    injection h with h1 h2
    rw [Option.map_eq_some'] at h1
    obtain ⟨a, ha, h3⟩ := h1
    subst h3
    simp only [XCrossingEvent.new, Option.map_eq_some'] at ha
    obtain ⟨b, -, rfl⟩ := ha
    simp [handlesAllForeign, XEventData.windows, XEventData.colormaps,
          XWindow.new, XColormap.new]
  rw [if_neg c6] at h
  by_cases c7 : event.type_ = xlib_sys.Expose
  · rw [if_pos c7] at h
    injection h with h1 h2
    injection h1 with h1
    subst h1
    simp [handlesAllForeign, XEventData.windows, XEventData.colormaps,
          XMotionEvent.new, XButtonEvent.new, XKeyEvent.new, XDestroyWindowEvent.new,
          XGravityEvent.new, XMapEvent.new, XReparentEvent.new, XUnmapEvent.new,
          XMapRequestEvent.new, XSelectionRequestEvent.new, XSelectionEvent.new,
          XWindow.new]
  rw [if_neg c7] at h
  by_cases c8 : event.type_ = xlib_sys.FocusIn
  · rw [if_pos c8] at h
    injection h with h1 h2
    rw [Option.map_eq_some'] at h1
    obtain ⟨a, -, h3⟩ := h1
    subst h3
    simp [handlesAllForeign, XEventData.windows, XEventData.colormaps]
  rw [if_neg c8] at h
  by_cases c9 : event.type_ = xlib_sys.FocusOut
  · rw [if_pos c9] at h
    injection h with h1 h2
    rw [Option.map_eq_some'] at h1
    obtain ⟨a, -, h3⟩ := h1
    subst h3
    simp [handlesAllForeign, XEventData.windows, XEventData.colormaps]
  rw [if_neg c9] at h
  by_cases c10 : event.type_ = xlib_sys.KeymapNotify
  · rw [if_pos c10] at h
    injection h with h1 h2
    injection h1 with h1
    subst h1
    simp [handlesAllForeign, XEventData.windows, XEventData.colormaps,
          XMotionEvent.new, XButtonEvent.new, XKeyEvent.new, XDestroyWindowEvent.new,
          XGravityEvent.new, XMapEvent.new, XReparentEvent.new, XUnmapEvent.new,
          XMapRequestEvent.new, XSelectionRequestEvent.new, XSelectionEvent.new,
          XWindow.new]
  rw [if_neg c10] at h
  by_cases c11 : event.type_ = xlib_sys.KeyPress
  · rw [if_pos c11] at h
    injection h with h1 h2
    injection h1 with h1
    subst h1
    simp [handlesAllForeign, XEventData.windows, XEventData.colormaps,
          XMotionEvent.new, XButtonEvent.new, XKeyEvent.new, XDestroyWindowEvent.new,
          XGravityEvent.new, XMapEvent.new, XReparentEvent.new, XUnmapEvent.new,
          XMapRequestEvent.new, XSelectionRequestEvent.new, XSelectionEvent.new,
          XWindow.new]
  rw [if_neg c11] at h
  by_cases c12 : event.type_ = xlib_sys.KeyRelease
  · rw [if_pos c12] at h
    injection h with h1 h2
    injection h1 with h1
    subst h1
    simp [handlesAllForeign, XEventData.windows, XEventData.colormaps,
          XMotionEvent.new, XButtonEvent.new, XKeyEvent.new, XDestroyWindowEvent.new,
          XGravityEvent.new, XMapEvent.new, XReparentEvent.new, XUnmapEvent.new,
          XMapRequestEvent.new, XSelectionRequestEvent.new, XSelectionEvent.new,
          XWindow.new]
  rw [if_neg c12] at h
  by_cases c13 : event.type_ = xlib_sys.PropertyNotify
  · rw [if_pos c13] at h
    injection h with h1 h2
    rw [Option.map_eq_some'] at h1
    obtain ⟨a, -, h3⟩ := h1
    subst h3
    simp [handlesAllForeign, XEventData.windows, XEventData.colormaps]
  rw [if_neg c13] at h
  by_cases c14 : event.type_ = xlib_sys.ResizeRequest
  · rw [if_pos c14] at h
    injection h with h1 h2
    injection h1 with h1
    subst h1
    simp [handlesAllForeign, XEventData.windows, XEventData.colormaps,
          XMotionEvent.new, XButtonEvent.new, XKeyEvent.new, XDestroyWindowEvent.new,
          XGravityEvent.new, XMapEvent.new, XReparentEvent.new, XUnmapEvent.new,
          XMapRequestEvent.new, XSelectionRequestEvent.new, XSelectionEvent.new,
          XWindow.new]
  rw [if_neg c14] at h
  by_cases c15 : event.type_ = xlib_sys.CirculateNotify
  · rw [if_pos c15] at h
    injection h with h1 h2
    rw [Option.map_eq_some'] at h1
    obtain ⟨a, ha, h3⟩ := h1
    subst h3
    simp only [XCirculateEvent.new, Option.map_eq_some'] at ha
    obtain ⟨b, -, rfl⟩ := ha
    simp [handlesAllForeign, XEventData.windows, XEventData.colormaps,
          XWindow.new, XColormap.new]
  rw [if_neg c15] at h
  by_cases c16 : event.type_ = xlib_sys.ConfigureNotify
  · rw [if_pos c16] at h
    injection h with h1 h2
    injection h1 with h1
    subst h1
    simp only [handlesAllForeign, XEventData.windows, XEventData.colormaps,
               XConfigureEvent.new, XWindow.new]
    by_cases hc : event.configure.above = 0 <;> simp [hc]
  rw [if_neg c16] at h
  by_cases c17 : event.type_ = xlib_sys.DestroyNotify
  · rw [if_pos c17] at h
    injection h with h1 h2
    injection h1 with h1
    subst h1
    simp [handlesAllForeign, XEventData.windows, XEventData.colormaps,
          XMotionEvent.new, XButtonEvent.new, XKeyEvent.new, XDestroyWindowEvent.new,
          XGravityEvent.new, XMapEvent.new, XReparentEvent.new, XUnmapEvent.new,
          XMapRequestEvent.new, XSelectionRequestEvent.new, XSelectionEvent.new,
          XWindow.new]
  rw [if_neg c17] at h
  by_cases c18 : event.type_ = xlib_sys.GravityNotify
  · rw [if_pos c18] at h
    injection h with h1 h2
    injection h1 with h1
    subst h1
    simp [handlesAllForeign, XEventData.windows, XEventData.colormaps,
          XMotionEvent.new, XButtonEvent.new, XKeyEvent.new, XDestroyWindowEvent.new,
          XGravityEvent.new, XMapEvent.new, XReparentEvent.new, XUnmapEvent.new,
          XMapRequestEvent.new, XSelectionRequestEvent.new, XSelectionEvent.new,
          XWindow.new]
  rw [if_neg c18] at h
  by_cases c19 : event.type_ = xlib_sys.MapNotify
  · rw [if_pos c19] at h
    injection h with h1 h2
    injection h1 with h1
    subst h1
    simp [handlesAllForeign, XEventData.windows, XEventData.colormaps,
          XMotionEvent.new, XButtonEvent.new, XKeyEvent.new, XDestroyWindowEvent.new,
          XGravityEvent.new, XMapEvent.new, XReparentEvent.new, XUnmapEvent.new,
          XMapRequestEvent.new, XSelectionRequestEvent.new, XSelectionEvent.new,
          XWindow.new]
  rw [if_neg c19] at h
  by_cases c20 : event.type_ = xlib_sys.ReparentNotify
  · rw [if_pos c20] at h
    injection h with h1 h2
    injection h1 with h1
    subst h1
    simp [handlesAllForeign, XEventData.windows, XEventData.colormaps,
          XMotionEvent.new, XButtonEvent.new, XKeyEvent.new, XDestroyWindowEvent.new,
          XGravityEvent.new, XMapEvent.new, XReparentEvent.new, XUnmapEvent.new,
          XMapRequestEvent.new, XSelectionRequestEvent.new, XSelectionEvent.new,
          XWindow.new]
  rw [if_neg c20] at h
  by_cases c21 : event.type_ = xlib_sys.UnmapNotify
  · rw [if_pos c21] at h
    injection h with h1 h2
    injection h1 with h1
    subst h1
    simp [handlesAllForeign, XEventData.windows, XEventData.colormaps,
          XMotionEvent.new, XButtonEvent.new, XKeyEvent.new, XDestroyWindowEvent.new,
          XGravityEvent.new, XMapEvent.new, XReparentEvent.new, XUnmapEvent.new,
          XMapRequestEvent.new, XSelectionRequestEvent.new, XSelectionEvent.new,
          XWindow.new]
  rw [if_neg c21] at h
  by_cases c22 : event.type_ = xlib_sys.CirculateRequest
  · rw [if_pos c22] at h
    injection h with h1 h2
    rw [Option.map_eq_some'] at h1
    obtain ⟨a, ha, h3⟩ := h1
    subst h3
    simp only [XCirculateRequestEvent.new, Option.map_eq_some'] at ha
    obtain ⟨b, -, rfl⟩ := ha
    simp [handlesAllForeign, XEventData.windows, XEventData.colormaps,
          XWindow.new, XColormap.new]
  rw [if_neg c22] at h
  by_cases c23 : event.type_ = xlib_sys.ConfigureRequest
  · rw [if_pos c23] at h
    injection h with h1 h2
    rw [Option.map_eq_some'] at h1
    obtain ⟨a, ha, h3⟩ := h1
    subst h3
    simp only [XConfigureRequestEvent.new, Option.map_eq_some'] at ha
    obtain ⟨b, -, rfl⟩ := ha
    simp [handlesAllForeign, XEventData.windows, XEventData.colormaps,
          XWindow.new, XColormap.new]
  rw [if_neg c23] at h
  by_cases c24 : event.type_ = xlib_sys.MapRequest
  · rw [if_pos c24] at h
    injection h with h1 h2
    injection h1 with h1
    subst h1
    simp [handlesAllForeign, XEventData.windows, XEventData.colormaps,
          XMotionEvent.new, XButtonEvent.new, XKeyEvent.new, XDestroyWindowEvent.new,
          XGravityEvent.new, XMapEvent.new, XReparentEvent.new, XUnmapEvent.new,
          XMapRequestEvent.new, XSelectionRequestEvent.new, XSelectionEvent.new,
          XWindow.new]
  rw [if_neg c24] at h
  by_cases c25 : event.type_ = xlib_sys.ClientMessage
  · rw [if_pos c25] at h
    injection h with h1 h2
    rw [Option.map_eq_some'] at h1
    obtain ⟨a, -, h3⟩ := h1
    subst h3
    simp [handlesAllForeign, XEventData.windows, XEventData.colormaps]
  rw [if_neg c25] at h
  by_cases c26 : event.type_ = xlib_sys.MappingNotify
  · rw [if_pos c26] at h
    injection h with h1 h2
    rw [Option.map_eq_some'] at h1
    obtain ⟨a, -, h3⟩ := h1
    subst h3
    simp [handlesAllForeign, XEventData.windows, XEventData.colormaps]
  rw [if_neg c26] at h
  by_cases c27 : event.type_ = xlib_sys.SelectionClear
  · rw [if_pos c27] at h
    injection h with h1 h2
    injection h1 with h1
    subst h1
    simp [handlesAllForeign, XEventData.windows, XEventData.colormaps,
          XMotionEvent.new, XButtonEvent.new, XKeyEvent.new, XDestroyWindowEvent.new,
          XGravityEvent.new, XMapEvent.new, XReparentEvent.new, XUnmapEvent.new,
          XMapRequestEvent.new, XSelectionRequestEvent.new, XSelectionEvent.new,
          XWindow.new]
  rw [if_neg c27] at h
  by_cases c28 : event.type_ = xlib_sys.SelectionNotify
  · rw [if_pos c28] at h
    injection h with h1 h2
    injection h1 with h1
    subst h1
    simp [handlesAllForeign, XEventData.windows, XEventData.colormaps,
          XMotionEvent.new, XButtonEvent.new, XKeyEvent.new, XDestroyWindowEvent.new,
          XGravityEvent.new, XMapEvent.new, XReparentEvent.new, XUnmapEvent.new,
          XMapRequestEvent.new, XSelectionRequestEvent.new, XSelectionEvent.new,
          XWindow.new]
  rw [if_neg c28] at h
  by_cases c29 : event.type_ = xlib_sys.SelectionRequest
  · rw [if_pos c29] at h
    injection h with h1 h2
    injection h1 with h1
    subst h1
    simp [handlesAllForeign, XEventData.windows, XEventData.colormaps,
          XMotionEvent.new, XButtonEvent.new, XKeyEvent.new, XDestroyWindowEvent.new,
          XGravityEvent.new, XMapEvent.new, XReparentEvent.new, XUnmapEvent.new,
          XMapRequestEvent.new, XSelectionRequestEvent.new, XSelectionEvent.new,
          XWindow.new]
  rw [if_neg c29] at h
  by_cases c30 : event.type_ = xlib_sys.VisibilityNotify
  · rw [if_pos c30] at h
    injection h with h1 h2
    rw [Option.map_eq_some'] at h1
    obtain ⟨a, -, h3⟩ := h1
    subst h3
    simp [handlesAllForeign, XEventData.windows, XEventData.colormaps]
  rw [if_neg c30] at h
  by_cases c31 : event.type_ = xlib_sys.GenericEvent
  · rw [if_pos c31] at h
    by_cases cg : event.generic_event_cookie.extension = display.xinput2_opcode
    · rw [if_pos cg] at h
      exact new_xinput2_handles_foreign event d n h
    · rw [if_neg cg] at h
      injection h with h1 h2
      injection h1 with h1
      subst h1
      simp [handlesAllForeign, XEventData.windows, XEventData.colormaps]
  rw [if_neg c31] at h
  by_cases c32 : event.type_ = display.xfixes_event_base + xfixes_sys.XFixesCursorNotify
  · rw [if_pos c32] at h
    injection h with h1 h2
    rw [Option.map_eq_some'] at h1
    obtain ⟨a, -, h3⟩ := h1
    subst h3
    simp [handlesAllForeign, XEventData.windows, XEventData.colormaps]
  rw [if_neg c32] at h
  injection h with h1 h2
  injection h1 with h1
  subst h1
  simp [handlesAllForeign, XEventData.windows, XEventData.colormaps]

/-- C2 witness: decoding a destroy event for window id `0x1234` yields a
handle with raw id `0x1234` and ownership Foreign, whose drop issues no
release call. -/
theorem decoded_handles_foreign_witness :
    XEventData.new destroyEvFix dispFix =
      (some (XEventData.Destroy
        { window := { handle := 0x1234
                      ownership := WindowHandleOwnership.Foreign } }), 0) ∧
    handlesAllForeign
      (XEventData.Destroy
        { window := { handle := 0x1234
                      ownership := WindowHandleOwnership.Foreign } }) ∧
    XWindow.dropAction
        { handle := 0x1234, ownership := WindowHandleOwnership.Foreign } =
      DropAction.none :=
  ⟨rfl,
   decoded_handles_foreign destroyEvFix dispFix
     (XEventData.Destroy
       { window := { handle := 0x1234
                     ownership := WindowHandleOwnership.Foreign } }) 0 rfl,
   rfl⟩

end Wrap11
